import Mathlib

/-!
HueWrapper: the native session wrapper of `src/native/hue_edk.cpp`.

A shallow embedding of the `HueWrapper` class: its member variables become the
record `HueWrapper`, every native method becomes a function from the state (and
the JavaScript arguments) to a result and the next state.

Modelling conventions

* A JavaScript number (an IEEE double in the source) is a rational number, so
  arithmetic is exact; NaN and the infinities are outside the model.
* The EDK classes (`HueStream`, `ManualEffect`, `Color`, `Bridge`, `Group`,
  `Light`, `Config`) are declared in headers that are not part of the
  repository; they are records holding what the wrapper reads and writes.
  The wrapper itself never clamps a colour component: the clamping to [0,1]
  is that of the `Color` constructors, taken from the specification.
* What the EDK reports after a blocking network call is not determined by the
  wrapper; such a call takes the report (`Observed`) as an extra argument.
* EDK calls return normally.  The `catch` branches of the source are reached
  only through a failed conversion of a JavaScript argument.
* The locks (`mutex_`, `LockMixer`/`UnlockMixer`) delimit critical sections and
  have no effect on a sequential run; they appear as comments.
-/

namespace HueEdk

/-! ## JavaScript values -/

/-- A primitive JavaScript value. -/
inductive JsAtom where
  | undefined
  | boolean (b : Bool)
  | number (x : ℚ)
  | string (s : String)
  deriving DecidableEq, Repr

/-- A JavaScript value as passed in `Napi::CallbackInfo`: a primitive or an
object with primitive properties. -/
inductive JsValue where
  | atom (a : JsAtom)
  | object (props : List (String × JsAtom))
  deriving DecidableEq, Repr

/-- The value `Napi::Number::New(x)` as an argument. -/
abbrev JsValue.num (x : ℚ) : JsValue := .atom (.number x)

/-- The value `Napi::String::New(s)` as an argument. -/
abbrev JsValue.str (s : String) : JsValue := .atom (.string s)

/-- The kind of the JavaScript exception left pending by a call. -/
inductive ErrorKind where
  | Error
  | TypeError
  deriving DecidableEq, Repr

/-- Models `info[i].As<Napi::Number>().DoubleValue()`: the number, or nothing when the
argument is not a number (node-addon-api then raises "A number was expected"). -/
def DoubleValue : JsValue → Option ℚ
  | .atom (.number x) => some x
  | _ => none

/-- Models `info[i].As<Napi::Number>().Int32Value()`: the number truncated towards zero
and reduced to the signed 32-bit range. -/
def Int32Value (v : JsValue) : Option Int :=
  match DoubleValue v with
  | none => none
  | some x =>
    let t : Int := if 0 ≤ x then Int.floor x else Int.ceil x
    let m : Int := t % 4294967296
    some (if 2147483648 ≤ m then m - 4294967296 else m)

/-- Models `info[i].IsString()` together with `As<Napi::String>().Utf8Value()`. -/
def Utf8Value : JsAtom → Option String
  | .string s => some s
  | _ => none

/-- Models `config.Get(key)`: the property, `undefined` when it is missing. -/
def JsGet : List (String × JsAtom) → String → JsAtom
  | [], _ => .undefined
  | (k, v) :: rest, key => if k = key then v else JsGet rest key

/-- Models `std::to_string(int)`. -/
def to_string (n : Int) : String := toString n

/-! ## EDK data -/

/-- Modelled from the spec: `huestream::Color` (Color.h is not in the
repository), the canonical colour: four floating values `(r,g,b,a)`. -/
structure Color where
  r : ℚ
  g : ℚ
  b : ℚ
  a : ℚ
  deriving DecidableEq, Repr

/-- Modelled from the spec: the clamping of a colour component to [0,1] that
the constructors of `huestream::Color` (not in the repository) apply, "clamp to
[0,1]" in §4.3 and "out-of-range inputs are clamped, never stored unclamped"
in §3. -/
def clamp01 (x : ℚ) : ℚ := if x < 0 then 0 else if 1 < x then 1 else x

/-- Modelled from the spec: the constructor `Color(r, g, b)` of
`huestream::Color` (not in the repository), §4.3: "clamp to [0,1]; alpha
defaults to 1.0 if omitted". -/
def Color.rgb (r g b : ℚ) : Color := ⟨clamp01 r, clamp01 g, clamp01 b, 1⟩

/-- Modelled from the spec: the constructor `Color(r, g, b, alpha)` of
`huestream::Color` (not in the repository), §3: "every stored Color's four
components lie in [0,1]; out-of-range inputs are clamped". -/
def Color.rgba (r g b alpha : ℚ) : Color :=
  ⟨clamp01 r, clamp01 g, clamp01 b, clamp01 alpha⟩

/-- The colour conversions of the EDK that the wrapper delegates to; their code
is not in the repository, so they are parameters of the colour operations. -/
structure ColorLib where
  /-- Models `Color(const double xy[2], double brightness)`. -/
  fromXY : ℚ → ℚ → ℚ → Color
  /-- Models `Color(int ct, double brightness, double maxBrightness)`. -/
  fromCT : Int → ℚ → ℚ → Color
  /-- Models `Color::ApplyBrightness(double)`. -/
  ApplyBrightness : Color → ℚ → Color

/-- Modelled from the spec: `huestream::Light` (Light.h is not in the
repository), a fixture with its identifier. -/
structure Light where
  id : String
  deriving DecidableEq, Repr

/-- Models `light->GetId()`. -/
def Light.GetId (l : Light) : String := l.id

/-- Modelled from the spec: `huestream::Group` (Group.h is not in the
repository), an identifier and the ordered fixtures; `GetLights()` may be a
null pointer. -/
structure Group where
  id : String
  lights : Option (List Light)
  deriving DecidableEq, Repr

/-- Modelled from the spec: `huestream::Bridge` (Bridge.h is not in the
repository): identifier, network address, credential pair, connected and
streaming flags, and the selected group. -/
structure Bridge where
  id : String
  ip : String
  user : String
  clientKey : String
  isConnected : Bool
  isStreaming : Bool
  group : Option Group
  deriving DecidableEq, Repr

/-- Modelled from the spec: `huestream::ConnectResult` (not declared in the
repository), `ConnectResult ∈ {Failed, ReadyToStart, Streaming}`. -/
inductive ConnectResult where
  | Failed
  | ReadyToStart
  | Streaming
  deriving DecidableEq, Repr

/-- Modelled from the spec: `huestream::Config` (Config.h is not in the
repository) with the settings `Initialize` writes. -/
structure Config where
  appName : String
  deviceName : String
  encryptionKey : String
  streamingMode : String
  useRenderThread : Bool
  updateFrequency : Nat
  deriving DecidableEq, Repr

/-- Modelled from the spec: `huestream::ManualEffect` (ManualEffect.h is not in
the repository): the mapping fixture-id → colour, in order of first insertion,
plus the enabled gate of the whole effect. -/
structure ManualEffect where
  name : String
  layer : Nat
  idToColor : List (String × Color)
  enabled : Bool
  deriving DecidableEq, Repr

/-- Models `std::make_shared<ManualEffect>(name, layer)`: no colours, not enabled. -/
def ManualEffect.new (name : String) (layer : Nat) : ManualEffect :=
  ⟨name, layer, [], false⟩

/-- The entry of a fixture in a fixture-id → colour map. -/
def lookupColor : List (String × Color) → String → Option Color
  | [], _ => none
  | (k, c) :: rest, id => if k = id then some c else lookupColor rest id

/-- Assignment `map[id] = color` of a `std::map`: overwrite or insert. -/
def assignColor : List (String × Color) → String → Color → List (String × Color)
  | [], id, color => [(id, color)]
  | (k, c) :: rest, id, color =>
    if k = id then (k, color) :: rest else (k, c) :: assignColor rest id color

/-- Models `manualEffect_->SetIdToColor(id, color)`. -/
def ManualEffect.SetIdToColor (e : ManualEffect) (id : String) (color : Color) :
    ManualEffect :=
  { e with idToColor := assignColor e.idToColor id color }

/-- Models `manualEffect_->Enable()`. -/
def ManualEffect.Enable (e : ManualEffect) : ManualEffect := { e with enabled := true }

/-- Models `manualEffect_->Disable()`. -/
def ManualEffect.Disable (e : ManualEffect) : ManualEffect := { e with enabled := false }

/-- What the EDK reports about the bridge; it changes with the network and is
read back after each blocking call. -/
structure Observed where
  connectionResult : ConnectResult
  activeBridge : Option Bridge
  bridgeStreaming : Bool
  deriving DecidableEq, Repr

/-- Modelled from the spec: `huestream::HueStream` (HueStream.h is not in the
repository), the BridgeController/Transport collaborator: what it reports
(`connect -> ConnectResult`, `isStreaming`, `activeBridge`) and a record of the
commands it was given (`selectGroup`, the effects added to the mixer, `stop`,
`shutdown`). -/
structure HueStream where
  config : Config
  connectionResult : ConnectResult
  activeBridge : Option Bridge
  bridgeStreaming : Bool
  manualBridge : Option Bridge
  selectedGroup : Option String
  mixerEffects : List String
  stopCalls : Nat
  shutDownCalls : Nat
  deriving DecidableEq, Repr

/-- Models `std::make_unique<HueStream>(config)`. -/
def HueStream.new (config : Config) : HueStream :=
  ⟨config, .Failed, none, false, none, none, [], 0, 0⟩

/-- The report of the EDK replaces what the stream object showed before. -/
def HueStream.observe (hs : HueStream) (o : Observed) : HueStream :=
  { hs with connectionResult := o.connectionResult,
            activeBridge := o.activeBridge,
            bridgeStreaming := o.bridgeStreaming }

/-- Models `hueStream_->IsBridgeStreaming()`. -/
def HueStream.IsBridgeStreaming (hs : HueStream) : Bool := hs.bridgeStreaming

/-- Models `hueStream_->GetActiveBridge()`. -/
def HueStream.GetActiveBridge (hs : HueStream) : Option Bridge := hs.activeBridge

/-- Models `hueStream_->GetConnectionResult()`. -/
def HueStream.GetConnectionResult (hs : HueStream) : ConnectResult := hs.connectionResult

/-- Models `hueStream_->ConnectManualBridgeInfo(bridge)`: blocks, then the EDK reports
`reply`. -/
def HueStream.ConnectManualBridgeInfo (hs : HueStream) (bridge : Bridge)
    (reply : Observed) : HueStream :=
  { hs.observe reply with manualBridge := some bridge }

/-- Models `hueStream_->SelectGroup(groupId)`: blocks, then the EDK reports `reply`. -/
def HueStream.SelectGroup (hs : HueStream) (groupId : String) (reply : Observed) :
    HueStream :=
  { hs.observe reply with selectedGroup := some groupId }

/-- Models `hueStream_->AddEffect(effect)`: the mixer holds one more effect. -/
def HueStream.AddEffect (hs : HueStream) (e : ManualEffect) : HueStream :=
  { hs with mixerEffects := hs.mixerEffects ++ [e.name] }

/-- Models `hueStream_->Stop()`. -/
def HueStream.Stop (hs : HueStream) : HueStream :=
  { hs with stopCalls := hs.stopCalls + 1, bridgeStreaming := false }

/-- Models `hueStream_->ShutDown()`. -/
def HueStream.ShutDown (hs : HueStream) : HueStream :=
  { hs with shutDownCalls := hs.shutDownCalls + 1 }

/-! ## The wrapper -/

/-- The member variables of `class HueWrapper` (the mutex apart). -/
structure HueWrapper where
  appName_ : String
  deviceName_ : String
  config_ : Option Config
  hueStream_ : Option HueStream
  manualEffect_ : Option ManualEffect
  initialized_ : Bool
  connected_ : Bool
  streaming_ : Bool
  selectedGroupId_ : String
  deriving DecidableEq, Repr

/-- The `bridge` entry of the object `GetStatus` returns. -/
structure BridgeInfo where
  id : String
  ip : String
  connected : Bool
  streaming : Bool
  deriving DecidableEq, Repr

/-- The object `GetStatus` returns. -/
structure Status where
  initialized : Bool
  connected : Bool
  streaming : Bool
  appName : String
  deviceName : String
  streamingMode : String
  selectedGroup : String
  bridge : Option BridgeInfo
  deriving DecidableEq, Repr

/-- The `Napi::Value` a native method hands back to JavaScript. -/
inductive Outcome where
  /-- Models `Napi::Boolean::New(env, b)`. -/
  | boolean (b : Bool)
  /-- The result object of `Initialize`: success, streamingMode (when set), message. -/
  | initResult (success : Bool) (streamingMode : Option String) (message : String)
  /-- The array of `GetLightIds`. -/
  | lightIds (ids : List String)
  /-- The object of `GetStatus`. -/
  | status (s : Status)
  /-- A JavaScript exception is pending and `env.Undefined()` is returned. -/
  | throws (kind : ErrorKind) (message : String)
  /-- A member call through a null `hueStream_`: undefined behaviour. -/
  | nullDeref
  deriving DecidableEq, Repr

/-- The constructor `HueWrapper(appName, deviceName)` called with two strings. -/
def HueWrapper.new (appName deviceName : String) : HueWrapper :=
  { appName_ := appName, deviceName_ := deviceName,
    config_ := none, hueStream_ := none, manualEffect_ := none,
    initialized_ := false, connected_ := false, streaming_ := false,
    selectedGroupId_ := "0" }

/-- Source lines 137-180, `HueWrapper::Initialize`. -/
def Initialize (w : HueWrapper) : Outcome × HueWrapper :=
  if w.initialized_ then
    (.initResult true none "Already initialized", w)
  else
    let config : Config :=
      { appName := w.appName_, deviceName := w.deviceName_,
        encryptionKey := "default_key",
        streamingMode := "DTLS", useRenderThread := true, updateFrequency := 60 }
    (.initResult true (some "DTLS") "EDK HueStream initialized",
      { w with config_ := some config,
               hueStream_ := some (HueStream.new config),
               initialized_ := true })

/-- Source lines 182-229, `HueWrapper::ConnectManual`; `reply` is what the EDK
reports once `ConnectManualBridgeInfo` has returned. -/
def ConnectManual (w : HueWrapper) (info : List JsValue) (reply : Observed) :
    Outcome × HueWrapper :=
  match w.initialized_, w.hueStream_ with
  | true, some hs =>
    match info with
    | .object config :: _ =>
      match Utf8Value (JsGet config "id"), Utf8Value (JsGet config "ip"),
            Utf8Value (JsGet config "username"), Utf8Value (JsGet config "clientKey") with
      | some bridgeId, some ipAddress, some username, some clientKey =>
        let bridge : Bridge :=
          { id := bridgeId, ip := ipAddress, user := username, clientKey := clientKey,
            isConnected := false, isStreaming := false, group := none }
        let hs1 := hs.ConnectManualBridgeInfo bridge reply
        let result := hs1.GetConnectionResult
        let connected :=
          decide (result = ConnectResult.ReadyToStart) || decide (result = ConnectResult.Streaming)
        (.boolean connected, { w with hueStream_ := some hs1, connected_ := connected })
      | _, _, _, _ =>
        (.throws .Error "Bridge connection failed: A string was expected", w)
    | _ => (.throws .TypeError "Expected bridge config object", w)
  | _, _ => (.throws .Error "Not initialized", w)

/-- The group id of `SelectGroup`, source lines 243-246: the first argument
when it is a string, the entertainment group "200" otherwise. -/
def groupIdArg : List JsValue → String
  | .atom (.string s) :: _ => s
  | _ => "200"

/-- Source lines 231-260, `HueWrapper::SelectGroup`; `reply` is what the EDK
reports once `hueStream_->SelectGroup` has returned. -/
def SelectGroup (w : HueWrapper) (info : List JsValue) (reply : Observed) :
    Outcome × HueWrapper :=
  match w.initialized_, w.hueStream_ with
  | true, some hs =>
    let groupId : String := groupIdArg info
    (.boolean true,
      { w with selectedGroupId_ := groupId,
               hueStream_ := some (hs.SelectGroup groupId reply) })
  | _, _ => (.throws .Error "Not initialized", w)

/-- Source lines 262-306, `HueWrapper::Start`. -/
def Start (w : HueWrapper) : Outcome × HueWrapper :=
  match w.initialized_, w.hueStream_, w.connected_ with
  | true, some hs, true =>
    let streaming := hs.IsBridgeStreaming
    if !streaming then
      (.boolean false, { w with streaming_ := streaming })
    else
      match w.manualEffect_ with
      | none =>
        let effect := ManualEffect.new "manual_effect" 1
        -- LockMixer; AddEffect; Enable; UnlockMixer
        (.boolean true,
          { w with streaming_ := streaming,
                   hueStream_ := some (hs.AddEffect effect),
                   manualEffect_ := some effect.Enable })
      | some effect =>
        -- LockMixer; Enable; UnlockMixer
        (.boolean true,
          { w with streaming_ := streaming, manualEffect_ := some effect.Enable })
  | _, _, _ => (.throws .Error "Not connected to bridge", w)

/-- The light list the all-fixtures operations iterate over, source lines
398-401: the active bridge, its group and the group's lights must all exist. -/
def groupLights (hs : HueStream) : Option (List Light) :=
  match hs.GetActiveBridge with
  | some bridge =>
    match bridge.group with
    | some group => group.lights
    | none => none
  | none => none

/-- Source lines 308-337, `HueWrapper::GetLightIds`. -/
def GetLightIds (w : HueWrapper) : Outcome × HueWrapper :=
  match w.hueStream_ with
  | some hs =>
    match hs.GetActiveBridge with
    | some _ =>
      match groupLights hs with
      | some lights => (.lightIds (lights.map Light.GetId), w)
      | none => (.lightIds [], w)
    | none => (.throws .Error "Not connected to bridge", w)
  | none => (.throws .Error "Not connected to bridge", w)

/-- Source lines 339-346, `HueWrapper::Update`. -/
def Update (w : HueWrapper) : Outcome × HueWrapper := (.boolean true, w)

/-- Source lines 348-373, `HueWrapper::Stop`. -/
def Stop (w : HueWrapper) : Outcome × HueWrapper :=
  match w.manualEffect_ with
  | some effect =>
    match w.hueStream_ with
    | some _ =>
      -- LockMixer; Disable; UnlockMixer
      (.boolean true, { w with manualEffect_ := some effect.Disable })
    | none => (.nullDeref, w)
  | none => (.boolean true, w)

/-! ## Colour operations -/

/-- The guard every colour operation opens with,
`!hueStream_ || !hueStream_->IsBridgeStreaming() || !manualEffect_`: when it
lets the call through, the stream object and the effect it found. -/
def streamingGate (w : HueWrapper) : Option (HueStream × ManualEffect) :=
  match w.hueStream_ with
  | none => none
  | some hs =>
    if !hs.IsBridgeStreaming then none
    else
      match w.manualEffect_ with
      | none => none
      | some effect => some (hs, effect)

/-- The argument `info[i]`. -/
def arg (info : List JsValue) (i : Nat) : JsValue :=
  (info.get? i).getD (.atom .undefined)

/-- The loop `for (auto& light : *lights) manualEffect_->SetIdToColor(light->GetId(), color)`. -/
def setAll (effect : ManualEffect) (lights : List Light) (color : Color) : ManualEffect :=
  lights.foldl (fun e light => e.SetIdToColor light.GetId color) effect

/-- The block shared by the all-fixtures operations (source lines 398-409 and
its copies): with a light list, colour every light and enable the effect;
without one, nothing. -/
def applyToGroup (w : HueWrapper) (hs : HueStream) (effect : ManualEffect)
    (color : Color) : HueWrapper :=
  match groupLights hs with
  | some lights =>
    -- LockMixer; loop; Enable; UnlockMixer
    { w with manualEffect_ := some (setAll effect lights color).Enable }
  | none => w

/-- The block shared by the per-fixture operations (source lines 486-489 and
its copies): colour the light `std::to_string(lightId)` and enable the effect. -/
def applyToLight (w : HueWrapper) (effect : ManualEffect) (lightId : Int)
    (color : Color) : HueWrapper :=
  -- LockMixer; SetIdToColor; Enable; UnlockMixer
  { w with manualEffect_ := some (effect.SetIdToColor (to_string lightId) color).Enable }

/-- Source lines 377-418, `HueWrapper::SetColorRGB`. -/
def SetColorRGB (w : HueWrapper) (info : List JsValue) : Outcome × HueWrapper :=
  match streamingGate w with
  | none => (.throws .Error "Not streaming", w)
  | some (hs, effect) =>
    if info.length < 3 then (.throws .TypeError "Expected r, g, b values", w)
    else
      match DoubleValue (arg info 0), DoubleValue (arg info 1), DoubleValue (arg info 2) with
      | some r0, some g0, some b0 =>
        let color := Color.rgb (r0 / 255) (g0 / 255) (b0 / 255)
        (.boolean true, applyToGroup w hs effect color)
      | _, _, _ => (.throws .Error "SetColorRGB failed: A number was expected", w)

/-- Source lines 420-462, `HueWrapper::SetColorRGBA`. -/
def SetColorRGBA (w : HueWrapper) (info : List JsValue) : Outcome × HueWrapper :=
  match streamingGate w with
  | none => (.throws .Error "Not streaming", w)
  | some (hs, effect) =>
    if info.length < 4 then (.throws .TypeError "Expected r, g, b, alpha values", w)
    else
      match DoubleValue (arg info 0), DoubleValue (arg info 1), DoubleValue (arg info 2),
            DoubleValue (arg info 3) with
      | some r0, some g0, some b0, some alpha =>
        let color := Color.rgba (r0 / 255) (g0 / 255) (b0 / 255) alpha
        (.boolean true, applyToGroup w hs effect color)
      | _, _, _, _ => (.throws .Error "SetColorRGBA failed: A number was expected", w)

/-- Source lines 464-498, `HueWrapper::SetLightColorRGB`. -/
def SetLightColorRGB (w : HueWrapper) (info : List JsValue) : Outcome × HueWrapper :=
  match streamingGate w with
  | none => (.throws .Error "Not streaming", w)
  | some (_, effect) =>
    if info.length < 4 then (.throws .TypeError "Expected lightId, r, g, b", w)
    else
      match Int32Value (arg info 0), DoubleValue (arg info 1), DoubleValue (arg info 2),
            DoubleValue (arg info 3) with
      | some lightId, some r0, some g0, some b0 =>
        let color := Color.rgb (r0 / 255) (g0 / 255) (b0 / 255)
        (.boolean true, applyToLight w effect lightId color)
      | _, _, _, _ => (.throws .Error "SetLightColorRGB failed: A number was expected", w)

/-- Source lines 500-535, `HueWrapper::SetLightColorRGBA`. -/
def SetLightColorRGBA (w : HueWrapper) (info : List JsValue) : Outcome × HueWrapper :=
  match streamingGate w with
  | none => (.throws .Error "Not streaming", w)
  | some (_, effect) =>
    if info.length < 5 then (.throws .TypeError "Expected lightId, r, g, b, alpha", w)
    else
      match Int32Value (arg info 0), DoubleValue (arg info 1), DoubleValue (arg info 2),
            DoubleValue (arg info 3), DoubleValue (arg info 4) with
      | some lightId, some r0, some g0, some b0, some alpha =>
        let color := Color.rgba (r0 / 255) (g0 / 255) (b0 / 255) alpha
        (.boolean true, applyToLight w effect lightId color)
      | _, _, _, _, _ => (.throws .Error "SetLightColorRGBA failed: A number was expected", w)

/-- Source lines 539-581, `HueWrapper::SetColorXY`. -/
def SetColorXY (lib : ColorLib) (w : HueWrapper) (info : List JsValue) :
    Outcome × HueWrapper :=
  match streamingGate w with
  | none => (.throws .Error "Not streaming", w)
  | some (hs, effect) =>
    if info.length < 3 then (.throws .TypeError "Expected x, y, brightness values", w)
    else
      match DoubleValue (arg info 0), DoubleValue (arg info 1), DoubleValue (arg info 2) with
      | some x, some y, some brightness =>
        let color := lib.fromXY x y brightness
        (.boolean true, applyToGroup w hs effect color)
      | _, _, _ => (.throws .Error "SetColorXY failed: A number was expected", w)

/-- Source lines 583-618, `HueWrapper::SetLightColorXY`. -/
def SetLightColorXY (lib : ColorLib) (w : HueWrapper) (info : List JsValue) :
    Outcome × HueWrapper :=
  match streamingGate w with
  | none => (.throws .Error "Not streaming", w)
  | some (_, effect) =>
    if info.length < 4 then (.throws .TypeError "Expected lightId, x, y, brightness", w)
    else
      match Int32Value (arg info 0), DoubleValue (arg info 1), DoubleValue (arg info 2),
            DoubleValue (arg info 3) with
      | some lightId, some x, some y, some brightness =>
        let color := lib.fromXY x y brightness
        (.boolean true, applyToLight w effect lightId color)
      | _, _, _, _ => (.throws .Error "SetLightColorXY failed: A number was expected", w)

/-- Source lines 622-662, `HueWrapper::SetColorCT`. -/
def SetColorCT (lib : ColorLib) (w : HueWrapper) (info : List JsValue) :
    Outcome × HueWrapper :=
  match streamingGate w with
  | none => (.throws .Error "Not streaming", w)
  | some (hs, effect) =>
    if info.length < 2 then
      (.throws .TypeError "Expected colorTemperature, brightness values", w)
    else
      match Int32Value (arg info 0), DoubleValue (arg info 1) with
      | some ct, some brightness =>
        let color := lib.fromCT ct brightness 254
        (.boolean true, applyToGroup w hs effect color)
      | _, _ => (.throws .Error "SetColorCT failed: A number was expected", w)

/-- Source lines 664-697, `HueWrapper::SetLightColorCT`. -/
def SetLightColorCT (lib : ColorLib) (w : HueWrapper) (info : List JsValue) :
    Outcome × HueWrapper :=
  match streamingGate w with
  | none => (.throws .Error "Not streaming", w)
  | some (_, effect) =>
    if info.length < 3 then
      (.throws .TypeError "Expected lightId, colorTemperature, brightness", w)
    else
      match Int32Value (arg info 0), Int32Value (arg info 1), DoubleValue (arg info 2) with
      | some lightId, some ct, some brightness =>
        let color := lib.fromCT ct brightness 254
        (.boolean true, applyToLight w effect lightId color)
      | _, _, _ => (.throws .Error "SetLightColorCT failed: A number was expected", w)

/-- Source lines 701-741, `HueWrapper::SetBrightness`. -/
def SetBrightness (lib : ColorLib) (w : HueWrapper) (info : List JsValue) :
    Outcome × HueWrapper :=
  match streamingGate w with
  | none => (.throws .Error "Not streaming", w)
  | some (hs, effect) =>
    if info.length < 1 then (.throws .TypeError "Expected brightness value", w)
    else
      match DoubleValue (arg info 0) with
      | some brightness =>
        let color := lib.ApplyBrightness (Color.rgb 1 1 1) brightness
        (.boolean true, applyToGroup w hs effect color)
      | none => (.throws .Error "SetBrightness failed: A number was expected", w)

/-- Source lines 743-776, `HueWrapper::SetLightBrightness`. -/
def SetLightBrightness (lib : ColorLib) (w : HueWrapper) (info : List JsValue) :
    Outcome × HueWrapper :=
  match streamingGate w with
  | none => (.throws .Error "Not streaming", w)
  | some (_, effect) =>
    if info.length < 2 then (.throws .TypeError "Expected lightId, brightness", w)
    else
      match Int32Value (arg info 0), DoubleValue (arg info 1) with
      | some lightId, some brightness =>
        let color := lib.ApplyBrightness (Color.rgb 1 1 1) brightness
        (.boolean true, applyToLight w effect lightId color)
      | _, _ => (.throws .Error "SetLightBrightness failed: A number was expected", w)

/-! ## Status and shutdown -/

/-- Source lines 778-806, `HueWrapper::GetStatus`. -/
def GetStatus (w : HueWrapper) : Outcome × HueWrapper :=
  let isStreaming : Bool :=
    match w.hueStream_ with
    | some hs => hs.IsBridgeStreaming
    | none => false
  let bridgeInfo : Option BridgeInfo :=
    match w.initialized_, w.hueStream_ with
    | true, some hs =>
      match hs.GetActiveBridge with
      | some bridge =>
        some { id := bridge.id, ip := bridge.ip,
               connected := bridge.isConnected, streaming := bridge.isStreaming }
      | none => none
    | _, _ => none
  (.status
    { initialized := w.initialized_, connected := w.connected_, streaming := isStreaming,
      appName := w.appName_, deviceName := w.deviceName_, streamingMode := "DTLS",
      selectedGroup := w.selectedGroupId_, bridge := bridgeInfo }, w)

/-- First step of `Shutdown`, source lines 813-819: disable the effect. -/
def shutdownDisable (w : HueWrapper) : HueWrapper :=
  match w.manualEffect_, w.hueStream_ with
  | some effect, some _ => { w with manualEffect_ := some effect.Disable }
  | _, _ => w

/-- Second step of `Shutdown`, source lines 821-825: stop streaming if active. -/
def shutdownStop (w : HueWrapper) : HueWrapper :=
  let w1 : HueWrapper :=
    match w.hueStream_ with
    | some hs => if hs.IsBridgeStreaming then { w with hueStream_ := some hs.Stop } else w
    | none => w
  { w1 with streaming_ := false }

/-- Third step of `Shutdown`, source lines 827-830: shut the stream object down. -/
def shutdownStream (w : HueWrapper) : HueWrapper :=
  match w.initialized_, w.hueStream_ with
  | true, some hs => { w with hueStream_ := some hs.ShutDown }
  | _, _ => w

/-- Last step of `Shutdown`, source lines 832-837: release all resources. -/
def shutdownRelease (w : HueWrapper) : HueWrapper :=
  { w with manualEffect_ := none, hueStream_ := none, config_ := none,
           initialized_ := false, connected_ := false }

/-- Source lines 808-844, `HueWrapper::Shutdown`. -/
def Shutdown (w : HueWrapper) : Outcome × HueWrapper :=
  (.boolean true, shutdownRelease (shutdownStream (shutdownStop (shutdownDisable w))))

/-! ## Calls and traces -/

/-- The ten colour operations registered in `HueWrapper::Init`. -/
inductive ColorOp where
  | setColorRGB
  | setColorRGBA
  | setLightColorRGB
  | setLightColorRGBA
  | setColorXY
  | setLightColorXY
  | setColorCT
  | setLightColorCT
  | setBrightness
  | setLightBrightness
  deriving DecidableEq, Repr

/-- The native method behind each colour operation. -/
def callColor (lib : ColorLib) : ColorOp → HueWrapper → List JsValue → Outcome × HueWrapper
  | .setColorRGB => SetColorRGB
  | .setColorRGBA => SetColorRGBA
  | .setLightColorRGB => SetLightColorRGB
  | .setLightColorRGBA => SetLightColorRGBA
  | .setColorXY => SetColorXY lib
  | .setLightColorXY => SetLightColorXY lib
  | .setColorCT => SetColorCT lib
  | .setLightColorCT => SetLightColorCT lib
  | .setBrightness => SetBrightness lib
  | .setLightBrightness => SetLightBrightness lib

/-- The per-fixture operations, whose first argument is the light id. -/
def ColorOp.perFixture : ColorOp → Bool
  | .setLightColorRGB | .setLightColorRGBA | .setLightColorXY
  | .setLightColorCT | .setLightBrightness => true
  | _ => false

/-- A call of one of the methods registered in `HueWrapper::Init`, with its
arguments and, for the two blocking calls, the report of the EDK. -/
inductive Call where
  | Initialize
  | ConnectManual (info : List JsValue) (reply : Observed)
  | SelectGroup (info : List JsValue) (reply : Observed)
  | Start
  | Stop
  | Color (op : ColorOp) (info : List JsValue)
  | GetLightIds
  | Update
  | GetStatus
  | Shutdown
  deriving DecidableEq, Repr

/-- The method table of `HueWrapper::Init`. -/
def invoke (lib : ColorLib) (w : HueWrapper) : Call → Outcome × HueWrapper
  | .Initialize => Initialize w
  | .ConnectManual info reply => ConnectManual w info reply
  | .SelectGroup info reply => SelectGroup w info reply
  | .Start => Start w
  | .Stop => Stop w
  | .Color op info => callColor lib op w info
  | .GetLightIds => GetLightIds w
  | .Update => Update w
  | .GetStatus => GetStatus w
  | .Shutdown => Shutdown w

/-- What happens to a wrapper: a method call, or the bridge changing what the
stream object reports (streaming started or stopped, group changed). -/
inductive Event where
  | call (c : Call)
  | bridge (o : Observed)
  deriving DecidableEq, Repr

/-- The bridge changes what an existing stream object reports. -/
def bridgeChange (w : HueWrapper) (o : Observed) : HueWrapper :=
  match w.hueStream_ with
  | some hs => { w with hueStream_ := some (hs.observe o) }
  | none => w

/-- The state after one event. -/
def Event.apply (lib : ColorLib) (w : HueWrapper) : Event → HueWrapper
  | .call c => (invoke lib w c).2
  | .bridge o => bridgeChange w o

/-- The state after a sequence of events. -/
def run (lib : ColorLib) (w : HueWrapper) : List Event → HueWrapper
  | [] => w
  | ev :: rest => run lib (ev.apply lib w) rest

/-- No `start` call of the trace returned `true`. -/
def startNeverSucceeded (lib : ColorLib) : HueWrapper → List Event → Prop
  | _, [] => True
  | w, ev :: rest =>
    (ev = .call .Start → (Start w).1 ≠ .boolean true) ∧
      startNeverSucceeded lib (ev.apply lib w) rest

/-- The fixture-id → colour map of the wrapper: the map of the manual effect,
empty while no effect exists. -/
def colorMap (w : HueWrapper) : List (String × Color) :=
  match w.manualEffect_ with
  | some effect => effect.idToColor
  | none => []

/-- The colour stored for a fixture. -/
def colorOf (w : HueWrapper) (fixture : String) : Option Color :=
  lookupColor (colorMap w) fixture

/-- The enabled flag of the effect, when an effect exists. -/
def effectEnabled (w : HueWrapper) : Option Bool :=
  w.manualEffect_.map (fun effect => effect.enabled)

/-- A colour library for concrete runs: the conversions return a colour built
from their arguments (the conversions of the EDK are not in the repository). -/
def sampleLib : ColorLib :=
  { fromXY := fun x y brightness => ⟨x, y, 0, brightness⟩,
    fromCT := fun ct brightness maxBrightness => ⟨ct, brightness, maxBrightness, 1⟩,
    ApplyBrightness := fun c brightness =>
      ⟨c.r * brightness, c.g * brightness, c.b * brightness, c.a⟩ }

/-- A bridge with the entertainment group "200" of the lights "1", "2", "3". -/
def sampleBridge : Bridge :=
  { id := "bridge", ip := "192.168.1.2", user := "user", clientKey := "key",
    isConnected := true, isStreaming := true,
    group := some { id := "200", lights := some [⟨"1"⟩, ⟨"2"⟩, ⟨"3"⟩] } }

/-- The EDK reports a streaming bridge. -/
def sampleStreaming : Observed :=
  { connectionResult := .Streaming, activeBridge := some sampleBridge,
    bridgeStreaming := true }

/-- The bridge descriptor passed to `connectManual`. -/
def sampleConfig : JsValue :=
  .object [("id", .string "bridge"), ("ip", .string "192.168.1.2"),
           ("username", .string "user"), ("clientKey", .string "key")]

/-- A session after `initialize`. -/
def sampleInitialized : HueWrapper := (Initialize (HueWrapper.new "app" "device")).2

/-- A session after `initialize`, `connectManual`, `selectGroup("200")`, `start()`. -/
def sampleStarted : HueWrapper :=
  run sampleLib (HueWrapper.new "app" "device")
    [.call .Initialize, .call (.ConnectManual [sampleConfig] sampleStreaming),
     .call (.SelectGroup [.str "200"] sampleStreaming), .call .Start]

/-- A started session after `stop()`: the effect exists and is disabled. -/
def sampleStopped : HueWrapper := (Stop sampleStarted).2

/-- The colour a colour operation constructs from its arguments (the
`Color color(...)` statement of each method, e.g. source lines 391-396, 558-559,
640, 718-719); nothing when an argument is not a number. -/
def colorOfCall (lib : ColorLib) (op : ColorOp) (info : List JsValue) : Option Color :=
  match op with
  | .setColorRGB =>
    match DoubleValue (arg info 0), DoubleValue (arg info 1), DoubleValue (arg info 2) with
    | some r0, some g0, some b0 => some (Color.rgb (r0 / 255) (g0 / 255) (b0 / 255))
    | _, _, _ => none
  | .setColorRGBA =>
    match DoubleValue (arg info 0), DoubleValue (arg info 1), DoubleValue (arg info 2),
          DoubleValue (arg info 3) with
    | some r0, some g0, some b0, some alpha =>
      some (Color.rgba (r0 / 255) (g0 / 255) (b0 / 255) alpha)
    | _, _, _, _ => none
  | .setLightColorRGB =>
    match Int32Value (arg info 0), DoubleValue (arg info 1), DoubleValue (arg info 2),
          DoubleValue (arg info 3) with
    | some _, some r0, some g0, some b0 => some (Color.rgb (r0 / 255) (g0 / 255) (b0 / 255))
    | _, _, _, _ => none
  | .setLightColorRGBA =>
    match Int32Value (arg info 0), DoubleValue (arg info 1), DoubleValue (arg info 2),
          DoubleValue (arg info 3), DoubleValue (arg info 4) with
    | some _, some r0, some g0, some b0, some alpha =>
      some (Color.rgba (r0 / 255) (g0 / 255) (b0 / 255) alpha)
    | _, _, _, _, _ => none
  | .setColorXY =>
    match DoubleValue (arg info 0), DoubleValue (arg info 1), DoubleValue (arg info 2) with
    | some x, some y, some brightness => some (lib.fromXY x y brightness)
    | _, _, _ => none
  | .setLightColorXY =>
    match Int32Value (arg info 0), DoubleValue (arg info 1), DoubleValue (arg info 2),
          DoubleValue (arg info 3) with
    | some _, some x, some y, some brightness => some (lib.fromXY x y brightness)
    | _, _, _, _ => none
  | .setColorCT =>
    match Int32Value (arg info 0), DoubleValue (arg info 1) with
    | some ct, some brightness => some (lib.fromCT ct brightness 254)
    | _, _ => none
  | .setLightColorCT =>
    match Int32Value (arg info 0), Int32Value (arg info 1), DoubleValue (arg info 2) with
    | some _, some ct, some brightness => some (lib.fromCT ct brightness 254)
    | _, _, _ => none
  | .setBrightness =>
    match DoubleValue (arg info 0) with
    | some brightness => some (lib.ApplyBrightness (Color.rgb 1 1 1) brightness)
    | none => none
  | .setLightBrightness =>
    match Int32Value (arg info 0), DoubleValue (arg info 1) with
    | some _, some brightness => some (lib.ApplyBrightness (Color.rgb 1 1 1) brightness)
    | _, _ => none

/-- The fixture a call addresses: for a per-fixture operation the decimal string
of its light id, for an all-fixtures operation every light of the group of the
active bridge. -/
def addresses (w : HueWrapper) (op : ColorOp) (info : List JsValue) (fixture : String) :
    Bool :=
  if op.perFixture then
    match Int32Value (arg info 0) with
    | some lightId => decide (to_string lightId = fixture)
    | none => false
  else
    match w.hueStream_ with
    | some hs =>
      match groupLights hs with
      | some lights => decide (fixture ∈ lights.map Light.GetId)
      | none => false
    | none => false

/-- The EDK reports a connected bridge that is ready to start and not yet
streaming. -/
def sampleReady : Observed :=
  { connectionResult := .ReadyToStart,
    activeBridge := some { sampleBridge with isStreaming := false },
    bridgeStreaming := false }

/-- A trace in which `start` is called too early and returns false, after which
the bridge begins to stream. -/
def sampleEarlyStart : List Event :=
  [.call .Initialize, .call (.ConnectManual [sampleConfig] sampleReady),
   .call (.SelectGroup [.str "200"] sampleReady), .call .Start,
   .bridge sampleStreaming]

/-- The EDK reports that no bridge is connected. -/
def sampleIdle : Observed :=
  { connectionResult := .Failed, activeBridge := none, bridgeStreaming := false }

/-- The selected group as the stream object was told, when a stream object exists. -/
def forwardedGroup (w : HueWrapper) : Option String :=
  match w.hueStream_ with
  | some hs => hs.selectedGroup
  | none => none

/-- The names of the effects added to the mixer, when a stream object exists. -/
def mixerEffects (w : HueWrapper) : List String :=
  match w.hueStream_ with
  | some hs => hs.mixerEffects
  | none => []

/-- A session after `initialize`, `connectManual` and `selectGroup("200")` whose
bridge is ready to start and does not stream yet. -/
def sampleConnected : HueWrapper :=
  run sampleLib (HueWrapper.new "app" "device")
    [.call .Initialize, .call (.ConnectManual [sampleConfig] sampleReady),
     .call (.SelectGroup [.str "200"] sampleReady)]

/-- The bridge descriptor of `ConnectManual` is well formed: its properties
`id`, `ip`, `username` and `clientKey` are strings (source lines 202-205). -/
def wellFormedDescriptor (config : List (String × JsAtom)) : Bool :=
  (Utf8Value (JsGet config "id")).isSome && (Utf8Value (JsGet config "ip")).isSome &&
    (Utf8Value (JsGet config "username")).isSome &&
    (Utf8Value (JsGet config "clientKey")).isSome

/-- Calls and bridge changes made after a shutdown, none of them `initialize`. -/
def sampleAfterShutdown : List Event :=
  [.call (.ConnectManual [sampleConfig] sampleStreaming),
   .call (.SelectGroup [.str "200"] sampleStreaming), .call .Start,
   .bridge sampleStreaming,
   .call (.Color .setColorRGB [.num 255, .num 0, .num 0]),
   .call .GetLightIds, .call .Update, .call .Stop, .call .GetStatus, .call .Shutdown]

/-- The wrapper and the mixer agree on the manual effect: either no effect
exists and the mixer of the stream object (if any) holds none, or the effect
exists on an initialised session whose mixer holds exactly that one effect. -/
def effectInMixer (w : HueWrapper) : Prop :=
  (w.manualEffect_ = none ∧ mixerEffects w = []) ∨
  (∃ effect hs, w.manualEffect_ = some effect ∧ w.hueStream_ = some hs ∧
    w.initialized_ = true ∧ hs.mixerEffects = ["manual_effect"])

/-- How often `hueStream_->Stop()` was called on the stream object, when one exists. -/
def transportStops (w : HueWrapper) : Option Nat :=
  w.hueStream_.map (fun hs => hs.stopCalls)

/-- All four components of the colour lie in [0,1]. -/
def Color.inUnit (c : Color) : Prop :=
  (0 ≤ c.r ∧ c.r ≤ 1) ∧ (0 ≤ c.g ∧ c.g ≤ 1) ∧ (0 ≤ c.b ∧ c.b ≤ 1) ∧ (0 ≤ c.a ∧ c.a ≤ 1)

/-- The r, g, b and alpha arguments of the four RGB operations by position
(alpha is 1 for the operations that take none); nothing for the other
operations or when one of them is not a number. -/
def rgbaArgs (op : ColorOp) (info : List JsValue) : Option (ℚ × ℚ × ℚ × ℚ) :=
  match op with
  | .setColorRGB =>
    match DoubleValue (arg info 0), DoubleValue (arg info 1), DoubleValue (arg info 2) with
    | some r0, some g0, some b0 => some (r0, g0, b0, 1)
    | _, _, _ => none
  | .setColorRGBA =>
    match DoubleValue (arg info 0), DoubleValue (arg info 1), DoubleValue (arg info 2),
          DoubleValue (arg info 3) with
    | some r0, some g0, some b0, some alpha => some (r0, g0, b0, alpha)
    | _, _, _, _ => none
  | .setLightColorRGB =>
    match DoubleValue (arg info 1), DoubleValue (arg info 2), DoubleValue (arg info 3) with
    | some r0, some g0, some b0 => some (r0, g0, b0, 1)
    | _, _, _ => none
  | .setLightColorRGBA =>
    match DoubleValue (arg info 1), DoubleValue (arg info 2), DoubleValue (arg info 3),
          DoubleValue (arg info 4) with
    | some r0, some g0, some b0, some alpha => some (r0, g0, b0, alpha)
    | _, _, _, _ => none
  | _ => none

/-- The number of arguments below which each colour operation is refused, as
the claim lists them. -/
def requiredArgs : ColorOp → Nat
  | .setColorRGB => 3
  | .setColorXY => 3
  | .setColorRGBA => 4
  | .setLightColorRGB => 4
  | .setLightColorXY => 4
  | .setLightColorRGBA => 5
  | .setColorCT => 2
  | .setLightBrightness => 2
  | .setLightColorCT => 3
  | .setBrightness => 1

/-- Modelled from the spec: the conversions of the EDK (not in the repository)
return canonical colours, all components in [0,1]: §4.3 "output is canonical
RGBA" for the XY and colour-temperature inputs, and the brightness helper
scales a canonical colour to a canonical colour. -/
def ColorLib.Canonical (lib : ColorLib) : Prop :=
  (∀ x y brightness, (lib.fromXY x y brightness).inUnit) ∧
  (∀ ct brightness maxBrightness, (lib.fromCT ct brightness maxBrightness).inUnit) ∧
  (∀ c brightness, c.inUnit → (lib.ApplyBrightness c brightness).inUnit)

/-- A colour library for concrete runs whose conversions return canonical
colours. -/
def sampleCanonicalLib : ColorLib :=
  { fromXY := fun x y brightness => Color.rgba x y 0 brightness,
    fromCT := fun ct brightness maxBrightness => Color.rgba ct brightness maxBrightness 1,
    ApplyBrightness := fun c brightness =>
      Color.rgba (c.r * brightness) (c.g * brightness) (c.b * brightness) c.a }

/-- Every colour stored in the fixture-id → colour map has its four components
in [0,1]. -/
def colorsInUnit (w : HueWrapper) : Prop :=
  ∀ fixture c, colorOf w fixture = some c → c.inUnit

/-- A session is started and `setColorRGB(510, -255, 0)` is called. -/
def sampleOutOfRangeTrace : List Event :=
  [.call .Initialize, .call (.ConnectManual [sampleConfig] sampleStreaming),
   .call (.SelectGroup [.str "200"] sampleStreaming), .call .Start,
   .call (.Color .setColorRGB [.num 510, .num (-255), .num 0])]

/-- A session ready for its first `start`: initialised, connected, group
selected, bridge streaming, no effect yet. -/
def sampleBeforeStart : HueWrapper :=
  run sampleLib (HueWrapper.new "app" "device")
    [.call .Initialize, .call (.ConnectManual [sampleConfig] sampleStreaming),
     .call (.SelectGroup [.str "200"] sampleStreaming)]

/-- A started session with red fixtures and a disabled effect, whose bridge
still streams and has lost its group. -/
def sampleNoGroup : HueWrapper :=
  run sampleLib sampleStarted
    [.call (.Color .setColorRGB [.num 255, .num 0, .num 0]), .call .Stop,
     .bridge { connectionResult := .Streaming,
               activeBridge := some { sampleBridge with group := none },
               bridgeStreaming := true }]

/-! ## Lemmas on the colour map -/

theorem lookupColor_assignColor (m : List (String × Color)) (id id' : String) (c : Color) :
    lookupColor (assignColor m id c) id' =
      if id = id' then some c else lookupColor m id' := by
  induction m with
  | nil => simp [assignColor, lookupColor]
  | cons p rest ih =>
    obtain ⟨k, c0⟩ := p
    by_cases hk : k = id
    · subst hk
      by_cases hq : k = id' <;> simp [assignColor, lookupColor, hq]
    · by_cases hq : k = id'
      · subst hq
        have hne : ¬ id = k := fun h => hk h.symm
        simp [assignColor, lookupColor, hk, hne]
      · simp [assignColor, lookupColor, hk, hq, ih]

theorem setAll_enabled (effect : ManualEffect) (lights : List Light) (c : Color) :
    (setAll effect lights c).enabled = effect.enabled := by
  induction lights generalizing effect with
  | nil => rfl
  | cons l rest ih =>
    simp only [setAll, List.foldl_cons] at ih ⊢
    rw [ih]
    rfl

theorem lookupColor_setAll (effect : ManualEffect) (lights : List Light) (c : Color)
    (id : String) :
    lookupColor (setAll effect lights c).idToColor id =
      if id ∈ lights.map Light.GetId then some c else lookupColor effect.idToColor id := by
  induction lights generalizing effect with
  | nil => simp [setAll]
  | cons l rest ih =>
    simp only [setAll, List.foldl_cons] at ih ⊢
    rw [ih]
    by_cases hmem : id ∈ rest.map Light.GetId
    · simp [hmem]
    · by_cases hl : l.GetId = id
      · simp [hmem, ManualEffect.SetIdToColor, lookupColor_assignColor, hl]
      · have hl' : ¬ id = l.GetId := fun h => hl h.symm
        simp [hmem, ManualEffect.SetIdToColor, lookupColor_assignColor, hl, hl']

/-- The guard fails exactly in the three situations the source tests for. -/
theorem streamingGate_eq_none (w : HueWrapper) :
    streamingGate w = none ↔
      (w.hueStream_ = none ∨
        (∃ hs, w.hueStream_ = some hs ∧ hs.IsBridgeStreaming = false) ∨
        w.manualEffect_ = none) := by
  unfold streamingGate
  cases hhs : w.hueStream_ with
  | none => simp
  | some hs =>
    cases hb : hs.IsBridgeStreaming with
    | false => simp [hb]
    | true =>
      cases he : w.manualEffect_ with
      | none => simp [hb]
      | some e => simp [hb]

theorem streamingGate_eq_some (w : HueWrapper) (hs : HueStream) (effect : ManualEffect)
    (hhs : w.hueStream_ = some hs) (hb : hs.IsBridgeStreaming = true)
    (he : w.manualEffect_ = some effect) :
    streamingGate w = some (hs, effect) := by
  simp [streamingGate, hhs, hb, he]

theorem streamingGate_some_inv (w : HueWrapper) (hs : HueStream) (effect : ManualEffect)
    (h : streamingGate w = some (hs, effect)) :
    w.hueStream_ = some hs ∧ hs.IsBridgeStreaming = true ∧ w.manualEffect_ = some effect := by
  unfold streamingGate at h
  cases hhs : w.hueStream_ with
  | none => simp [hhs] at h
  | some hs0 =>
    cases hb : hs0.IsBridgeStreaming with
    | false => simp [hhs, hb] at h
    | true =>
      cases he : w.manualEffect_ with
      | none => simp [hhs, hb, he] at h
      | some e =>
        simp [hhs, hb, he] at h
        obtain ⟨h1, h2⟩ := h
        subst h1 h2
        exact ⟨rfl, hb, rfl⟩

/-- When the guard fails, a colour operation raises "Not streaming" and the
wrapper is left as it was. -/
theorem callColor_gate_none (lib : ColorLib) (op : ColorOp) (w : HueWrapper)
    (info : List JsValue) (h : streamingGate w = none) :
    callColor lib op w info = (.throws .Error "Not streaming", w) := by
  cases op <;>
    simp [callColor, SetColorRGB, SetColorRGBA, SetLightColorRGB, SetLightColorRGBA,
      SetColorXY, SetLightColorXY, SetColorCT, SetLightColorCT, SetBrightness,
      SetLightBrightness, h]

theorem callColor_cases (lib : ColorLib) (op : ColorOp) (w : HueWrapper)
    (info : List JsValue) :
    (∃ k m, callColor lib op w info = (.throws k m, w)) ∨
    (∃ hs effect c, streamingGate w = some (hs, effect) ∧ colorOfCall lib op info = some c ∧
      ((op.perFixture = true ∧ ∃ n, Int32Value (arg info 0) = some n ∧
          callColor lib op w info = (.boolean true, applyToLight w effect n c)) ∨
       (op.perFixture = false ∧
          callColor lib op w info = (.boolean true, applyToGroup w hs effect c)))) := by
  cases hg : streamingGate w with
  | none => exact Or.inl ⟨_, _, callColor_gate_none lib op w info hg⟩
  | some p =>
    obtain ⟨hs, effect⟩ := p
    cases op <;>
      simp only [callColor, SetColorRGB, SetColorRGBA, SetLightColorRGB, SetLightColorRGBA,
        SetColorXY, SetLightColorXY, SetColorCT, SetLightColorCT, SetBrightness,
        SetLightBrightness, colorOfCall, ColorOp.perFixture, hg] <;>
      split_ifs <;>
      first
        | exact Or.inl ⟨_, _, rfl⟩
        | (split <;>
            first
              | exact Or.inl ⟨_, _, rfl⟩
              | (right; simp [*, Color.rgb, Color.rgba]; exact ⟨hs, effect, ⟨rfl, rfl⟩, rfl⟩))

theorem colorOf_applyToLight (w : HueWrapper) (effect : ManualEffect) (n : Int) (c : Color)
    (f : String) (he : w.manualEffect_ = some effect) :
    colorOf (applyToLight w effect n c) f =
      if to_string n = f then some c else colorOf w f := by
  simp [colorOf, colorMap, applyToLight, ManualEffect.Enable, ManualEffect.SetIdToColor,
    lookupColor_assignColor, he]

theorem colorOf_applyToGroup (w : HueWrapper) (hs : HueStream) (effect : ManualEffect)
    (c : Color) (f : String) (L : List Light) (he : w.manualEffect_ = some effect)
    (hgl : groupLights hs = some L) :
    colorOf (applyToGroup w hs effect c) f =
      if f ∈ L.map Light.GetId then some c else colorOf w f := by
  simp only [colorOf, colorMap, applyToGroup, hgl, ManualEffect.Enable, he]
  exact lookupColor_setAll effect L c f

theorem run_append (lib : ColorLib) (w : HueWrapper) (evs : List Event) (ev : Event) :
    run lib w (evs ++ [ev]) = ev.apply lib (run lib w evs) := by
  induction evs generalizing w with
  | nil => rfl
  | cons e rest ih => exact ih (e.apply lib w)

/-- The three ways `Start` ends: the "Not connected to bridge" error, the
boolean false of a bridge that does not stream yet, or true. -/
theorem Start_cases (w : HueWrapper) :
    (Start w = (.throws .Error "Not connected to bridge", w) ∧
      (w.initialized_ = false ∨ w.hueStream_ = none ∨ w.connected_ = false)) ∨
    (∃ hs, w.initialized_ = true ∧ w.hueStream_ = some hs ∧ w.connected_ = true ∧
      hs.IsBridgeStreaming = false ∧
      Start w = (.boolean false, { w with streaming_ := false })) ∨
    (∃ hs, w.initialized_ = true ∧ w.hueStream_ = some hs ∧ w.connected_ = true ∧
      hs.IsBridgeStreaming = true ∧ (Start w).1 = .boolean true) := by
  cases hi : w.initialized_ with
  | false => exact Or.inl ⟨by simp [Start, hi], Or.inl rfl⟩
  | true =>
    cases hh : w.hueStream_ with
    | none => exact Or.inl ⟨by simp [Start, hi, hh], Or.inr (Or.inl rfl)⟩
    | some hs =>
      cases hc : w.connected_ with
      | false => exact Or.inl ⟨by simp [Start, hi, hh, hc], Or.inr (Or.inr rfl)⟩
      | true =>
        cases hb : hs.IsBridgeStreaming with
        | false =>
          exact Or.inr (Or.inl ⟨hs, rfl, rfl, rfl, hb, by simp [Start, hi, hh, hc, hb]⟩)
        | true =>
          refine Or.inr (Or.inr ⟨hs, rfl, rfl, rfl, hb, ?_⟩)
          cases he : w.manualEffect_ <;> simp [Start, hi, hh, hc, hb, he]

/-- An event other than a `start` that returns true creates no effect. -/
theorem apply_manualEffect_none (lib : ColorLib) (w : HueWrapper) (ev : Event)
    (hw : w.manualEffect_ = none)
    (hev : ev = .call .Start → (Start w).1 ≠ .boolean true) :
    (ev.apply lib w).manualEffect_ = none := by
  cases ev with
  | bridge o =>
    simp only [Event.apply, bridgeChange]
    split <;> simp [hw]
  | call c =>
    cases c with
    | Initialize =>
      simp only [Event.apply, invoke, Initialize]
      split <;> simp [hw]
    | ConnectManual info reply =>
      simp only [Event.apply, invoke, ConnectManual]
      repeat' split
      all_goals simp [hw]
    | SelectGroup info reply =>
      simp only [Event.apply, invoke, SelectGroup]
      split <;> simp [hw]
    | Start =>
      have hne := hev rfl
      simp only [Event.apply, invoke]
      rcases Start_cases w with ⟨h, -⟩ | ⟨hs, -, -, -, -, h⟩ | ⟨hs, -, -, -, -, h⟩
      · rw [h]; exact hw
      · rw [h]; exact hw
      · exact absurd h hne
    | Stop =>
      simp [Event.apply, invoke, Stop, hw]
    | Color op info =>
      have hg : streamingGate w = none := (streamingGate_eq_none w).2 (Or.inr (Or.inr hw))
      simp [Event.apply, invoke, callColor_gate_none lib op w info hg, hw]
    | GetLightIds =>
      simp only [Event.apply, invoke, GetLightIds]
      repeat' split
      all_goals simp [hw]
    | Update => simp [Event.apply, invoke, Update, hw]
    | GetStatus => simp [Event.apply, invoke, GetStatus, hw]
    | Shutdown => simp [Event.apply, invoke, Shutdown, shutdownRelease]

theorem run_manualEffect_none (lib : ColorLib) (w : HueWrapper) (trace : List Event)
    (hw : w.manualEffect_ = none) (hno : startNeverSucceeded lib w trace) :
    (run lib w trace).manualEffect_ = none := by
  induction trace generalizing w with
  | nil => exact hw
  | cons ev rest ih =>
    exact ih (ev.apply lib w) (apply_manualEffect_none lib w ev hw hno.1) hno.2

theorem Shutdown_eq (w : HueWrapper) :
    Shutdown w =
      (.boolean true,
        { w with manualEffect_ := none, hueStream_ := none, config_ := none,
                 initialized_ := false, connected_ := false, streaming_ := false }) := by
  unfold Shutdown shutdownRelease shutdownStream shutdownStop shutdownDisable
  congr 1
  repeat' split
  all_goals simp_all

/-- In the state a shutdown leaves, every event other than `initialize` leaves
the wrapper as it is. -/
theorem apply_after_Shutdown (lib : ColorLib) (w : HueWrapper) (ev : Event)
    (hne : ev ≠ .call .Initialize) :
    ev.apply lib (Shutdown w).2 = (Shutdown w).2 := by
  rw [Shutdown_eq w]
  cases ev with
  | bridge o => rfl
  | call c =>
    cases c with
    | Initialize => exact absurd rfl hne
    | ConnectManual info reply => rfl
    | SelectGroup info reply => rfl
    | Start => rfl
    | Stop => rfl
    | Color op info =>
      simp only [Event.apply, invoke]
      rw [callColor_gate_none lib op _ info ((streamingGate_eq_none _).2 (Or.inl rfl))]
    | GetLightIds => rfl
    | Update => rfl
    | GetStatus => rfl
    | Shutdown =>
      simp only [Event.apply, invoke]
      rw [Shutdown_eq]

theorem run_after_Shutdown (lib : ColorLib) (w : HueWrapper) (trace : List Event)
    (hno : ∀ ev ∈ trace, ev ≠ .call .Initialize) :
    run lib (Shutdown w).2 trace = (Shutdown w).2 := by
  induction trace with
  | nil => rfl
  | cons ev rest ih =>
    simp only [run]
    rw [apply_after_Shutdown lib w ev (hno ev (List.mem_cons_self _ _))]
    exact ih (fun e he => hno e (List.mem_cons_of_mem _ he))

/-- The result of `Start` on a connected session whose bridge streams. -/
theorem Start_of_streaming (w : HueWrapper) (hs : HueStream)
    (hi : w.initialized_ = true) (hh : w.hueStream_ = some hs) (hc : w.connected_ = true)
    (hb : hs.IsBridgeStreaming = true) :
    Start w = (.boolean true,
      match w.manualEffect_ with
      | none =>
        { w with streaming_ := true,
                 hueStream_ := some (hs.AddEffect (ManualEffect.new "manual_effect" 1)),
                 manualEffect_ := some (ManualEffect.Enable (ManualEffect.new "manual_effect" 1)) }
      | some effect =>
        { w with streaming_ := true, manualEffect_ := some (ManualEffect.Enable effect) }) := by
  cases he : w.manualEffect_ <;> simp [Start, hi, hh, hc, hb, he]

theorem GetLightIds_state (w : HueWrapper) : (GetLightIds w).2 = w := by
  unfold GetLightIds
  repeat' split
  all_goals rfl

theorem ConnectManual_state (w : HueWrapper) (info : List JsValue) (reply : Observed) :
    (ConnectManual w info reply).2 = w ∨
    ∃ hs bridge, w.initialized_ = true ∧ w.hueStream_ = some hs ∧
      (ConnectManual w info reply).2 =
        { w with hueStream_ := some (hs.ConnectManualBridgeInfo bridge reply),
                 connected_ := decide (reply.connectionResult = ConnectResult.ReadyToStart) ||
                   decide (reply.connectionResult = ConnectResult.Streaming) } := by
  unfold ConnectManual
  split
  · rename_i hs hi hh
    split
    · split
      · right
        exact ⟨hs, _, hi, hh, rfl⟩
      · left; rfl
    · left; rfl
  · left; rfl

theorem SelectGroup_state (w : HueWrapper) (info : List JsValue) (reply : Observed) :
    (SelectGroup w info reply).2 = w ∨
    ∃ hs, w.initialized_ = true ∧ w.hueStream_ = some hs ∧
      (SelectGroup w info reply).2 =
        { w with selectedGroupId_ := groupIdArg info,
                 hueStream_ := some (hs.SelectGroup (groupIdArg info) reply) } := by
  unfold SelectGroup
  split
  · rename_i hs hi hh
    right
    exact ⟨hs, hi, hh, rfl⟩
  · left; rfl

/-- Every event keeps the wrapper and the mixer in agreement on the effect. -/
theorem apply_effectInMixer (lib : ColorLib) (w : HueWrapper) (ev : Event)
    (h : effectInMixer w) : effectInMixer (ev.apply lib w) := by
  cases ev with
  | bridge o =>
    simp only [Event.apply, bridgeChange]
    cases hh : w.hueStream_ with
    | none => exact h
    | some hs =>
      rcases h with ⟨he, hm⟩ | ⟨e, hs', he, hh', hi, hm⟩
      · left
        simp [mixerEffects, hh] at hm
        exact ⟨he, by simp [mixerEffects, HueStream.observe, hm]⟩
      · right
        rw [hh] at hh'
        cases hh'
        exact ⟨e, _, he, rfl, hi, by simp [HueStream.observe, hm]⟩
  | call c =>
    cases c with
    | Initialize =>
      simp only [Event.apply, invoke, Initialize]
      cases hi : w.initialized_ with
      | true => simpa using h
      | false =>
        rcases h with ⟨he, -⟩ | ⟨e, hs', -, -, hi', -⟩
        · left
          simp [he, mixerEffects, HueStream.new]
        · rw [hi] at hi'
          exact absurd hi' (by simp)
    | ConnectManual info reply =>
      simp only [Event.apply, invoke]
      rcases ConnectManual_state w info reply with hst | ⟨hs, bridge, hi, hh, hst⟩
      · rw [hst]; exact h
      · rw [hst]
        rcases h with ⟨he, hm⟩ | ⟨e, hs', he, hh', hi', hm⟩
        · left
          simp [mixerEffects, hh] at hm
          exact ⟨he, by
            simp [mixerEffects, HueStream.ConnectManualBridgeInfo, HueStream.observe, hm]⟩
        · right
          rw [hh] at hh'
          cases hh'
          exact ⟨e, _, he, rfl, hi', by
            simp [HueStream.ConnectManualBridgeInfo, HueStream.observe, hm]⟩
    | SelectGroup info reply =>
      simp only [Event.apply, invoke]
      rcases SelectGroup_state w info reply with hst | ⟨hs, hi, hh, hst⟩
      · rw [hst]; exact h
      · rw [hst]
        rcases h with ⟨he, hm⟩ | ⟨e, hs', he, hh', hi', hm⟩
        · left
          simp [mixerEffects, hh] at hm
          exact ⟨he, by simp [mixerEffects, HueStream.SelectGroup, HueStream.observe, hm]⟩
        · right
          rw [hh] at hh'
          cases hh'
          exact ⟨e, _, he, rfl, hi', by simp [HueStream.SelectGroup, HueStream.observe, hm]⟩
    | Start =>
      simp only [Event.apply, invoke]
      rcases Start_cases w with ⟨hst, -⟩ | ⟨hs, -, -, -, -, hst⟩ | ⟨hs, hi, hh, hc, hb, -⟩
      · rw [hst]; exact h
      · rw [hst]
        rcases h with ⟨he, hm⟩ | ⟨e, hs', he, hh', hi', hm⟩
        · exact Or.inl ⟨he, hm⟩
        · exact Or.inr ⟨e, hs', he, hh', hi', hm⟩
      · rw [Start_of_streaming w hs hi hh hc hb]
        right
        rcases h with ⟨he, hm⟩ | ⟨e, hs', he, hh', hi', hm⟩
        · simp [mixerEffects, hh] at hm
          simp only [he]
          exact ⟨_, _, rfl, rfl, hi, by simp [HueStream.AddEffect, hm, ManualEffect.new]⟩
        · simp only [he]
          exact ⟨_, hs', rfl, hh', hi', hm⟩
    | Stop =>
      simp only [Event.apply, invoke, Stop]
      rcases h with ⟨he, hm⟩ | ⟨e, hs', he, hh', hi', hm⟩
      · simp only [he]
        exact Or.inl ⟨he, hm⟩
      · simp only [he, hh']
        exact Or.inr ⟨_, hs', rfl, rfl, hi', hm⟩
    | Color op info =>
      simp only [Event.apply, invoke]
      rcases callColor_cases lib op w info with ⟨k, m, hst⟩ | ⟨hs, e, c, hg, -, hcase⟩
      · rw [hst]; exact h
      · obtain ⟨hh, -, he⟩ := streamingGate_some_inv w hs e hg
        rcases h with ⟨he', -⟩ | ⟨e', hs', -, hh', hi', hm⟩
        · rw [he] at he'
          exact absurd he' (by simp)
        · rcases hcase with ⟨-, n, -, hst⟩ | ⟨-, hst⟩
          · rw [hst]
            exact Or.inr ⟨_, hs', rfl, hh', hi', hm⟩
          · rw [hst]
            unfold applyToGroup
            split
            · exact Or.inr ⟨_, hs', rfl, hh', hi', hm⟩
            · exact Or.inr ⟨e, hs', he, hh', hi', hm⟩
    | GetLightIds =>
      simp only [Event.apply, invoke, GetLightIds_state]
      exact h
    | Update => exact h
    | GetStatus => exact h
    | Shutdown =>
      simp only [Event.apply, invoke]
      rw [Shutdown_eq]
      exact Or.inl ⟨rfl, rfl⟩

theorem run_effectInMixer (lib : ColorLib) (w : HueWrapper) (trace : List Event)
    (h : effectInMixer w) : effectInMixer (run lib w trace) := by
  induction trace generalizing w with
  | nil => exact h
  | cons ev rest ih => exact ih (ev.apply lib w) (apply_effectInMixer lib w ev h)

theorem effectInMixer_new (appName deviceName : String) :
    effectInMixer (HueWrapper.new appName deviceName) :=
  Or.inl ⟨rfl, rfl⟩

/-- On a reachable state `Stop` finds a stream object whenever it finds an
effect. -/
theorem Stop_of_effectInMixer (w : HueWrapper) (h : effectInMixer w) :
    Stop w = (.boolean true,
      { w with manualEffect_ := w.manualEffect_.map ManualEffect.Disable }) := by
  rcases h with ⟨he, -⟩ | ⟨e, hs, he, hh, -, -⟩
  · simp only [Stop, he, Option.map_none']
    congr 1
    cases w
    simp_all
  · simp [Stop, he, hh]

theorem Start_twice (w : HueWrapper) (hs : HueStream)
    (hi : w.initialized_ = true) (hh : w.hueStream_ = some hs) (hc : w.connected_ = true)
    (hb : hs.IsBridgeStreaming = true) :
    Start (Start w).2 = (.boolean true, (Start w).2) := by
  rw [Start_of_streaming w hs hi hh hc hb]
  cases he : w.manualEffect_ with
  | none =>
    have hb' : hs.bridgeStreaming = true := hb
    simp [Start, hi, hc, hb', HueStream.AddEffect, HueStream.IsBridgeStreaming,
      ManualEffect.Enable]
  | some e =>
    simp [Start, hi, hh, hc, hb, ManualEffect.Enable]

/-- A colour call that returns true and addresses a fixture stores for it the
colour built from the call's arguments. -/
theorem colorOf_after_call (lib : ColorLib) (op : ColorOp) (w : HueWrapper)
    (info : List JsValue) (f : String)
    (hok : (callColor lib op w info).1 = .boolean true)
    (haddr : addresses w op info f = true) :
    ∃ c, colorOfCall lib op info = some c ∧ colorOf (callColor lib op w info).2 f = some c := by
  rcases callColor_cases lib op w info with ⟨k, m, hthrow⟩ | ⟨hs, effect, c, hg, hc, hcase⟩
  · rw [hthrow] at hok
    exact absurd hok (by simp)
  · obtain ⟨hhs, -, he⟩ := streamingGate_some_inv w hs effect hg
    refine ⟨c, hc, ?_⟩
    rcases hcase with ⟨hper, n, hn, hcall⟩ | ⟨hper, hcall⟩
    · rw [hcall]
      simp only [addresses, hper, if_true, hn, decide_eq_true_eq] at haddr
      rw [colorOf_applyToLight w effect n c f he, if_pos haddr]
    · rw [hcall]
      simp only [addresses, hper, hhs] at haddr
      cases hgl : groupLights hs with
      | none => simp [hgl] at haddr
      | some L =>
        simp only [hgl, decide_eq_true_eq] at haddr
        simp only [Bool.false_eq_true, if_false, decide_eq_true_eq] at haddr
        rw [colorOf_applyToGroup w hs effect c f L he hgl, if_pos haddr]

theorem clamp01_mem (x : ℚ) : 0 ≤ clamp01 x ∧ clamp01 x ≤ 1 := by
  unfold clamp01
  split_ifs with h0 h1
  · exact ⟨le_refl 0, zero_le_one⟩
  · exact ⟨zero_le_one, le_refl 1⟩
  · exact ⟨not_lt.mp h0, not_lt.mp h1⟩

theorem clamp01_of_mem (x : ℚ) (h0 : 0 ≤ x) (h1 : x ≤ 1) : clamp01 x = x := by
  unfold clamp01
  rw [if_neg (not_lt.mpr h0), if_neg (not_lt.mpr h1)]

theorem Color.rgb_inUnit (r g b : ℚ) : (Color.rgb r g b).inUnit :=
  ⟨clamp01_mem r, clamp01_mem g, clamp01_mem b, zero_le_one, le_refl 1⟩

theorem Color.rgba_inUnit (r g b a : ℚ) : (Color.rgba r g b a).inUnit :=
  ⟨clamp01_mem r, clamp01_mem g, clamp01_mem b, clamp01_mem a⟩

/-- The colour an RGB operation builds is the quotient of its channel
arguments by 255 and its alpha, each clamped to [0,1]. -/
theorem colorOfCall_of_rgbaArgs (lib : ColorLib) (op : ColorOp) (info : List JsValue)
    (r g b a : ℚ) (c : Color) (hargs : rgbaArgs op info = some (r, g, b, a))
    (hc : colorOfCall lib op info = some c) :
    c = ⟨clamp01 (r / 255), clamp01 (g / 255), clamp01 (b / 255), clamp01 a⟩ := by
  have h1 : clamp01 1 = 1 := clamp01_of_mem 1 zero_le_one (le_refl 1)
  cases op <;> simp only [rgbaArgs, colorOfCall] at hargs hc <;>
    first
      | exact absurd hargs (by simp)
      | (split at hc
         · simp_all [Color.rgb, Color.rgba]
         · exact absurd hc (by simp))

/-- With canonical conversions, every colour a colour operation builds is
canonical. -/
theorem colorOfCall_inUnit (lib : ColorLib) (hlib : lib.Canonical) (op : ColorOp)
    (info : List JsValue) (c : Color) (hc : colorOfCall lib op info = some c) :
    c.inUnit := by
  obtain ⟨hxy, hct, hbr⟩ := hlib
  cases op <;> simp only [colorOfCall] at hc <;> split at hc
  case setColorRGB.h_1 => cases hc; exact Color.rgb_inUnit _ _ _
  case setColorRGBA.h_1 => cases hc; exact Color.rgba_inUnit _ _ _ _
  case setLightColorRGB.h_1 => cases hc; exact Color.rgb_inUnit _ _ _
  case setLightColorRGBA.h_1 => cases hc; exact Color.rgba_inUnit _ _ _ _
  case setColorXY.h_1 => cases hc; exact hxy _ _ _
  case setLightColorXY.h_1 => cases hc; exact hxy _ _ _
  case setColorCT.h_1 => cases hc; exact hct _ _ _
  case setLightColorCT.h_1 => cases hc; exact hct _ _ _
  case setBrightness.h_1 => cases hc; exact hbr _ _ (Color.rgb_inUnit _ _ _)
  case setLightBrightness.h_1 => cases hc; exact hbr _ _ (Color.rgb_inUnit _ _ _)
  all_goals cases hc

theorem colorsInUnit_of_colorMap (w w' : HueWrapper)
    (h : colorMap w' = colorMap w ∨ colorMap w' = []) (hw : colorsInUnit w) :
    colorsInUnit w' := by
  intro f c hf
  rcases h with h | h
  · exact hw f c (by simpa [colorOf, h] using hf)
  · simp [colorOf, h, lookupColor] at hf

/-- With canonical conversions, every event keeps the stored colours in [0,1]. -/
theorem apply_colorsInUnit (lib : ColorLib) (hlib : lib.Canonical) (w : HueWrapper)
    (ev : Event) (hw : colorsInUnit w) : colorsInUnit (ev.apply lib w) := by
  cases ev with
  | bridge o =>
    refine colorsInUnit_of_colorMap w _ (Or.inl ?_) hw
    simp only [Event.apply, bridgeChange]
    split <;> rfl
  | call c =>
    cases c with
    | Initialize =>
      refine colorsInUnit_of_colorMap w _ (Or.inl ?_) hw
      simp only [Event.apply, invoke, Initialize]
      split <;> rfl
    | ConnectManual info reply =>
      refine colorsInUnit_of_colorMap w _ (Or.inl ?_) hw
      simp only [Event.apply, invoke]
      rcases ConnectManual_state w info reply with hst | ⟨hs, bridge, -, -, hst⟩
      · rw [hst]
      · rw [hst]; rfl
    | SelectGroup info reply =>
      refine colorsInUnit_of_colorMap w _ (Or.inl ?_) hw
      simp only [Event.apply, invoke]
      rcases SelectGroup_state w info reply with hst | ⟨hs, -, -, hst⟩
      · rw [hst]
      · rw [hst]; rfl
    | Start =>
      refine colorsInUnit_of_colorMap w _ ?_ hw
      simp only [Event.apply, invoke]
      rcases Start_cases w with ⟨hst, -⟩ | ⟨hs, -, -, -, -, hst⟩ | ⟨hs, hi, hh, hc, hb, -⟩
      · rw [hst]; exact Or.inl rfl
      · rw [hst]; exact Or.inl rfl
      · rw [Start_of_streaming w hs hi hh hc hb]
        cases he : w.manualEffect_ with
        | none => exact Or.inr rfl
        | some e => exact Or.inl (by simp [colorMap, he, ManualEffect.Enable])
    | Stop =>
      refine colorsInUnit_of_colorMap w _ (Or.inl ?_) hw
      simp only [Event.apply, invoke, Stop]
      cases he : w.manualEffect_ with
      | none => simp [he]
      | some e =>
        cases hh : w.hueStream_ with
        | none => simp [he]
        | some hs => simp [colorMap, he, ManualEffect.Disable]
    | Color op info =>
      simp only [Event.apply, invoke]
      rcases callColor_cases lib op w info with ⟨k, m, hst⟩ | ⟨hs, e, c, hg, hc, hcase⟩
      · rw [hst]; exact hw
      · obtain ⟨-, -, he⟩ := streamingGate_some_inv w hs e hg
        have hcu := colorOfCall_inUnit lib hlib op info c hc
        rcases hcase with ⟨-, n, -, hst⟩ | ⟨-, hst⟩
        · rw [hst]
          intro f c' hf
          rw [colorOf_applyToLight w e n c f he] at hf
          split_ifs at hf with hfn
          · cases hf; exact hcu
          · exact hw f c' hf
        · rw [hst]
          cases hgl : groupLights hs with
          | none =>
            have : applyToGroup w hs e c = w := by simp [applyToGroup, hgl]
            rw [this]; exact hw
          | some L =>
            intro f c' hf
            rw [colorOf_applyToGroup w hs e c f L he hgl] at hf
            split_ifs at hf with hfn
            · cases hf; exact hcu
            · exact hw f c' hf
    | GetLightIds =>
      simp only [Event.apply, invoke, GetLightIds_state]
      exact hw
    | Update => exact hw
    | GetStatus => exact hw
    | Shutdown =>
      refine colorsInUnit_of_colorMap w _ (Or.inr ?_) hw
      simp only [Event.apply, invoke]
      rw [Shutdown_eq]
      rfl

theorem run_colorsInUnit (lib : ColorLib) (hlib : lib.Canonical) (w : HueWrapper)
    (trace : List Event) (hw : colorsInUnit w) : colorsInUnit (run lib w trace) := by
  induction trace generalizing w with
  | nil => exact hw
  | cons ev rest ih => exact ih (ev.apply lib w) (apply_colorsInUnit lib hlib w ev hw)

theorem sampleCanonicalLib_canonical : sampleCanonicalLib.Canonical :=
  ⟨fun _ _ _ => Color.rgba_inUnit _ _ _ _, fun _ _ _ => Color.rgba_inUnit _ _ _ _,
   fun _ _ _ => Color.rgba_inUnit _ _ _ _⟩

/-! ## Claims -/

/-- C1: for every wrapper state, every colour operation and all arguments, if
the stream object is absent, or the bridge does not report streaming, or no
manual effect has been created, the call raises the "Not streaming" error and
returns the wrapper unchanged (colour map, enabled flag and every session
flag); equivalently, a colour call that changes the colour map was made while
the bridge reported streaming and the effect existed. -/
theorem C1_color_call_fails_when_not_streaming (lib : ColorLib) (op : ColorOp)
    (w : HueWrapper) (info : List JsValue) :
    ((w.hueStream_ = none ∨
        (∃ hs, w.hueStream_ = some hs ∧ hs.IsBridgeStreaming = false) ∨
        w.manualEffect_ = none) →
      (callColor lib op w info).1 = .throws .Error "Not streaming" ∧
        (callColor lib op w info).2 = w ∧
        colorMap (callColor lib op w info).2 = colorMap w ∧
        effectEnabled (callColor lib op w info).2 = effectEnabled w) ∧
    (colorMap (callColor lib op w info).2 ≠ colorMap w →
      ∃ hs effect, w.hueStream_ = some hs ∧ hs.IsBridgeStreaming = true ∧
        w.manualEffect_ = some effect) := by
  constructor
  · intro h
    have hg : streamingGate w = none := (streamingGate_eq_none w).2 h
    rw [callColor_gate_none lib op w info hg]
    exact ⟨rfl, rfl, rfl, rfl⟩
  · intro hchg
    cases hg : streamingGate w with
    | none =>
      rw [callColor_gate_none lib op w info hg] at hchg
      exact absurd rfl hchg
    | some p =>
      obtain ⟨hs, effect⟩ := p
      exact ⟨hs, effect, streamingGate_some_inv w hs effect hg⟩

/-- C1 at concrete inputs: `setColorRGB(255,0,0)` on a freshly constructed
wrapper fails and changes nothing; on a started session it changes the map, and
there the bridge streams and the effect exists. -/
theorem C1_color_call_fails_when_not_streaming_witness :
    ((callColor sampleLib .setColorRGB (HueWrapper.new "app" "device")
          [.num 255, .num 0, .num 0]).1 = .throws .Error "Not streaming" ∧
      (callColor sampleLib .setColorRGB (HueWrapper.new "app" "device")
          [.num 255, .num 0, .num 0]).2 = HueWrapper.new "app" "device" ∧
      colorMap (callColor sampleLib .setColorRGB (HueWrapper.new "app" "device")
          [.num 255, .num 0, .num 0]).2 = colorMap (HueWrapper.new "app" "device") ∧
      effectEnabled (callColor sampleLib .setColorRGB (HueWrapper.new "app" "device")
          [.num 255, .num 0, .num 0]).2 = effectEnabled (HueWrapper.new "app" "device")) ∧
    (∃ hs effect, sampleStarted.hueStream_ = some hs ∧ hs.IsBridgeStreaming = true ∧
      sampleStarted.manualEffect_ = some effect) :=
  ⟨(C1_color_call_fails_when_not_streaming sampleLib .setColorRGB
      (HueWrapper.new "app" "device") [.num 255, .num 0, .num 0]).1 (Or.inl rfl),
   (C1_color_call_fails_when_not_streaming sampleLib .setColorRGB sampleStarted
      [.num 255, .num 0, .num 0]).2 (by decide)⟩

/-- C2: for r, g, b in [0,255] and a state in which the streaming gate passes
and the active bridge has a group with light list L, `setColorRGB(r,g,b)`
returns true, maps every fixture id of L to exactly (r/255, g/255, b/255, 1),
whose components lie in [0,1], and leaves the effect enabled whatever the
enabled flag was before. -/
theorem C2_setColorRGB_colours_every_fixture (w : HueWrapper) (hs : HueStream)
    (effect : ManualEffect) (bridge : Bridge) (group : Group) (L : List Light)
    (r g b : ℚ) (rest : List JsValue)
    (hhs : w.hueStream_ = some hs) (hstreaming : hs.IsBridgeStreaming = true)
    (heffect : w.manualEffect_ = some effect)
    (hbridge : hs.GetActiveBridge = some bridge) (hgroup : bridge.group = some group)
    (hlights : group.lights = some L)
    (hr : 0 ≤ r ∧ r ≤ 255) (hg : 0 ≤ g ∧ g ≤ 255) (hb : 0 ≤ b ∧ b ≤ 255) :
    (SetColorRGB w (.num r :: .num g :: .num b :: rest)).1 = .boolean true ∧
      (∀ l ∈ L, colorOf (SetColorRGB w (.num r :: .num g :: .num b :: rest)).2 l.GetId =
        some ⟨r / 255, g / 255, b / 255, 1⟩) ∧
      (0 ≤ r / 255 ∧ r / 255 ≤ 1 ∧ 0 ≤ g / 255 ∧ g / 255 ≤ 1 ∧
        0 ≤ b / 255 ∧ b / 255 ≤ 1) ∧
      effectEnabled (SetColorRGB w (.num r :: .num g :: .num b :: rest)).2 = some true := by
  have hgate := streamingGate_eq_some w hs effect hhs hstreaming heffect
  have hgl : groupLights hs = some L := by
    simp [groupLights, hbridge, hgroup, hlights]
  have hres : SetColorRGB w (.num r :: .num g :: .num b :: rest) =
      (.boolean true,
        applyToGroup w hs effect (Color.rgb (r / 255) (g / 255) (b / 255))) := by
    simp [SetColorRGB, hgate, arg, DoubleValue]
  rw [hres]
  refine ⟨rfl, ?_, ?_, ?_⟩
  · intro l hl
    have hmem : l.GetId ∈ L.map Light.GetId := List.mem_map_of_mem _ hl
    simp only [applyToGroup, hgl, colorOf, colorMap, ManualEffect.Enable]
    rw [lookupColor_setAll]
    have cr := clamp01_of_mem (r / 255) (div_nonneg hr.1 (by norm_num))
      ((div_le_one (by norm_num)).2 hr.2)
    have cg := clamp01_of_mem (g / 255) (div_nonneg hg.1 (by norm_num))
      ((div_le_one (by norm_num)).2 hg.2)
    have cb := clamp01_of_mem (b / 255) (div_nonneg hb.1 (by norm_num))
      ((div_le_one (by norm_num)).2 hb.2)
    simp [hmem, Color.rgb, cr, cg, cb]
  · refine ⟨?_, ?_, ?_, ?_, ?_, ?_⟩
    · exact div_nonneg hr.1 (by norm_num)
    · rw [div_le_one (by norm_num)]; exact hr.2
    · exact div_nonneg hg.1 (by norm_num)
    · rw [div_le_one (by norm_num)]; exact hg.2
    · exact div_nonneg hb.1 (by norm_num)
    · rw [div_le_one (by norm_num)]; exact hb.2
  · simp [applyToGroup, hgl, effectEnabled, ManualEffect.Enable]

/-- C2 at a concrete input: on a started session whose effect a preceding
`stop` has disabled, `setColorRGB(255,0,0)` returns true, maps the fixtures
"1", "2", "3" of the group to (1, 0, 0, 1) and enables the effect again. -/
theorem C2_setColorRGB_colours_every_fixture_witness :
    effectEnabled sampleStopped = some false ∧
    (SetColorRGB sampleStopped [.num 255, .num 0, .num 0]).1 = .boolean true ∧
    colorOf (SetColorRGB sampleStopped [.num 255, .num 0, .num 0]).2 "1" = some ⟨1, 0, 0, 1⟩ ∧
    colorOf (SetColorRGB sampleStopped [.num 255, .num 0, .num 0]).2 "2" = some ⟨1, 0, 0, 1⟩ ∧
    colorOf (SetColorRGB sampleStopped [.num 255, .num 0, .num 0]).2 "3" = some ⟨1, 0, 0, 1⟩ ∧
    effectEnabled (SetColorRGB sampleStopped [.num 255, .num 0, .num 0]).2 = some true := by
  have h := C2_setColorRGB_colours_every_fixture sampleStopped _ _ _ _
    [⟨"1"⟩, ⟨"2"⟩, ⟨"3"⟩] 255 0 0 [] rfl rfl rfl rfl rfl rfl
    (by norm_num) (by norm_num) (by norm_num)
  obtain ⟨h1, h2, -, h4⟩ := h
  have e1 := h2 ⟨"1"⟩ (by simp)
  have e2 := h2 ⟨"2"⟩ (by simp)
  have e3 := h2 ⟨"3"⟩ (by simp)
  norm_num [Light.GetId] at e1 e2 e3
  exact ⟨by decide, h1, e1, e2, e3, h4⟩

/-- C3: last-write-wins. After any sequence of earlier events (colour calls of
either variant among them), a colour call that returns true and addresses the
fixture f leaves f mapped to the colour built from the arguments of that last
call, whatever the earlier calls stored. -/
theorem C3_last_write_wins (lib : ColorLib) (w0 : HueWrapper) (earlier : List Event)
    (op : ColorOp) (info : List JsValue) (f : String)
    (hok : (callColor lib op (run lib w0 earlier) info).1 = .boolean true)
    (haddr : addresses (run lib w0 earlier) op info f = true) :
    ∃ c, colorOfCall lib op info = some c ∧
      colorOf (run lib w0 (earlier ++ [.call (.Color op info)])) f = some c := by
  have hrun : run lib w0 (earlier ++ [.call (.Color op info)]) =
      (callColor lib op (run lib w0 earlier) info).2 := run_append lib w0 earlier _
  rw [hrun]
  generalize run lib w0 earlier = w at hok haddr ⊢
  rcases callColor_cases lib op w info with ⟨k, m, hthrow⟩ | ⟨hs, effect, c, hg, hc, hcase⟩
  · rw [hthrow] at hok
    exact absurd hok (by simp)
  · obtain ⟨hhs, -, he⟩ := streamingGate_some_inv w hs effect hg
    refine ⟨c, hc, ?_⟩
    rcases hcase with ⟨hper, n, hn, hcall⟩ | ⟨hper, hcall⟩
    · rw [hcall]
      simp only [addresses, hper, if_true, hn, decide_eq_true_eq] at haddr
      rw [colorOf_applyToLight w effect n c f he, if_pos haddr]
    · rw [hcall]
      simp only [addresses, hper, hhs] at haddr
      cases hgl : groupLights hs with
      | none => simp [hgl] at haddr
      | some L =>
        simp only [hgl, decide_eq_true_eq] at haddr
        simp only [Bool.false_eq_true, if_false, decide_eq_true_eq] at haddr
        rw [colorOf_applyToGroup w hs effect c f L he hgl, if_pos haddr]

/-- C3 at a concrete input: after `setColorRGB(255,0,0)` and
`setLightColorRGB(3,0,255,0)`, the call `setColorRGB(0,0,255)` leaves fixture
"3" at (0, 0, 1, 1), the colour of the last call. -/
theorem C3_last_write_wins_witness :
    (callColor sampleLib .setColorRGB
        (run sampleLib sampleStarted
          [.call (.Color .setColorRGB [.num 255, .num 0, .num 0]),
           .call (.Color .setLightColorRGB [.num 3, .num 0, .num 255, .num 0])])
        [.num 0, .num 0, .num 255]).1 = .boolean true ∧
    colorOf (run sampleLib sampleStarted
        [.call (.Color .setColorRGB [.num 255, .num 0, .num 0]),
         .call (.Color .setLightColorRGB [.num 3, .num 0, .num 255, .num 0])]) "3" =
      some ⟨0, 1, 0, 1⟩ ∧
    colorOf (run sampleLib sampleStarted
        ([.call (.Color .setColorRGB [.num 255, .num 0, .num 0]),
          .call (.Color .setLightColorRGB [.num 3, .num 0, .num 255, .num 0])] ++
         [.call (.Color .setColorRGB [.num 0, .num 0, .num 255])])) "3" =
      some ⟨0, 0, 1, 1⟩ := by
  have hok : (callColor sampleLib .setColorRGB
      (run sampleLib sampleStarted
        [.call (.Color .setColorRGB [.num 255, .num 0, .num 0]),
         .call (.Color .setLightColorRGB [.num 3, .num 0, .num 255, .num 0])])
      [.num 0, .num 0, .num 255]).1 = .boolean true := by with_unfolding_all rfl
  obtain ⟨c, hc, hcol⟩ := C3_last_write_wins sampleLib sampleStarted
    [.call (.Color .setColorRGB [.num 255, .num 0, .num 0]),
     .call (.Color .setLightColorRGB [.num 3, .num 0, .num 255, .num 0])]
    .setColorRGB [.num 0, .num 0, .num 255] "3" hok (by with_unfolding_all rfl)
  have hval : colorOfCall sampleLib .setColorRGB [.num 0, .num 0, .num 255] =
      some ⟨0, 0, 1, 1⟩ := by with_unfolding_all rfl
  rw [hval] at hc
  rw [← Option.some.inj hc] at hcol
  exact ⟨hok, by with_unfolding_all rfl, hcol⟩

/-- C4: a per-fixture colour operation called with light id n leaves the colour
of every fixture other than the decimal string of n as it was. -/
theorem C4_per_fixture_call_frames_other_fixtures (lib : ColorLib) (op : ColorOp)
    (w : HueWrapper) (info : List JsValue) (n : Int) (f : String)
    (hop : op.perFixture = true) (hn : Int32Value (arg info 0) = some n)
    (hf : f ≠ to_string n) :
    colorOf (callColor lib op w info).2 f = colorOf w f := by
  rcases callColor_cases lib op w info with ⟨k, m, hthrow⟩ | ⟨hs, effect, c, hg, -, hcase⟩
  · rw [hthrow]
  · obtain ⟨-, -, he⟩ := streamingGate_some_inv w hs effect hg
    rcases hcase with ⟨-, n', hn', hcall⟩ | ⟨hper, -⟩
    · rw [hn] at hn'
      cases hn'
      rw [hcall, colorOf_applyToLight w effect n c f he, if_neg (fun h => hf h.symm)]
    · rw [hop] at hper
      exact absurd hper (by simp)

/-- C4 at a concrete input: `setLightColorCT(3, 300, 0.5)` on a session whose
fixtures are all red recolours "3" and leaves "1" and "2" red. -/
theorem C4_per_fixture_call_frames_other_fixtures_witness :
    colorOf (SetColorRGB sampleStarted [.num 255, .num 0, .num 0]).2 "1" = some ⟨1, 0, 0, 1⟩ ∧
    colorOf (SetLightColorCT sampleLib (SetColorRGB sampleStarted [.num 255, .num 0, .num 0]).2
        [.num 3, .num 300, .num (1 / 2)]).2 "3" = some ⟨300, 1 / 2, 254, 1⟩ ∧
    colorOf (SetLightColorCT sampleLib (SetColorRGB sampleStarted [.num 255, .num 0, .num 0]).2
        [.num 3, .num 300, .num (1 / 2)]).2 "1" =
      colorOf (SetColorRGB sampleStarted [.num 255, .num 0, .num 0]).2 "1" ∧
    colorOf (SetLightColorCT sampleLib (SetColorRGB sampleStarted [.num 255, .num 0, .num 0]).2
        [.num 3, .num 300, .num (1 / 2)]).2 "2" =
      colorOf (SetColorRGB sampleStarted [.num 255, .num 0, .num 0]).2 "2" :=
  ⟨by with_unfolding_all rfl, by with_unfolding_all rfl,
   C4_per_fixture_call_frames_other_fixtures sampleLib .setLightColorCT
     (SetColorRGB sampleStarted [.num 255, .num 0, .num 0]).2
     [.num 3, .num 300, .num (1 / 2)] 3 "1" rfl (by rfl) (by decide),
   C4_per_fixture_call_frames_other_fixtures sampleLib .setLightColorCT
     (SetColorRGB sampleStarted [.num 255, .num 0, .num 0]).2
     [.num 3, .num 300, .num (1 / 2)] 3 "2" rfl (by rfl) (by decide)⟩

/-- C5: in every state reached from a freshly constructed wrapper, or from a
shutdown that returned true, by a sequence of calls and bridge changes in which
no `start` call returned true, every colour operation raises the "Not streaming"
error and leaves the wrapper unchanged, whatever the bridge reports. -/
theorem C5_no_colour_before_start (lib : ColorLib) (w0 : HueWrapper) (trace : List Event)
    (op : ColorOp) (info : List JsValue)
    (hfrom : (∃ appName deviceName, w0 = HueWrapper.new appName deviceName) ∨
      (∃ w, Shutdown w = (.boolean true, w0)))
    (hno : startNeverSucceeded lib w0 trace) :
    callColor lib op (run lib w0 trace) info =
      (.throws .Error "Not streaming", run lib w0 trace) := by
  have hw0 : w0.manualEffect_ = none := by
    rcases hfrom with ⟨a, d, rfl⟩ | ⟨w, hw⟩
    · rfl
    · rw [Shutdown_eq] at hw
      rw [← (Prod.mk.inj hw).2]
  have hnone := run_manualEffect_none lib w0 trace hw0 hno
  exact callColor_gate_none lib op _ info
    ((streamingGate_eq_none _).2 (Or.inr (Or.inr hnone)))

/-- C5 at a concrete input: `start` is called before the bridge streams and
returns false; the bridge then streams, and `setColorRGB(255,0,0)` still fails
with "Not streaming". -/
theorem C5_no_colour_before_start_witness :
    (Start (run sampleLib (HueWrapper.new "app" "device")
        [.call .Initialize, .call (.ConnectManual [sampleConfig] sampleReady),
         .call (.SelectGroup [.str "200"] sampleReady)])).1 = .boolean false ∧
    (GetStatus (run sampleLib (HueWrapper.new "app" "device") sampleEarlyStart)).1 =
      .status { initialized := true, connected := true, streaming := true,
                appName := "app", deviceName := "device", streamingMode := "DTLS",
                selectedGroup := "200",
                bridge := some ⟨"bridge", "192.168.1.2", true, true⟩ } ∧
    callColor sampleLib .setColorRGB
        (run sampleLib (HueWrapper.new "app" "device") sampleEarlyStart)
        [.num 255, .num 0, .num 0] =
      (.throws .Error "Not streaming",
        run sampleLib (HueWrapper.new "app" "device") sampleEarlyStart) :=
  ⟨by decide, by decide,
   C5_no_colour_before_start sampleLib (HueWrapper.new "app" "device") sampleEarlyStart
     .setColorRGB [.num 255, .num 0, .num 0] (Or.inl ⟨"app", "device", rfl⟩)
     ⟨by simp, by simp, by simp, fun _ => by decide, by simp, trivial⟩⟩

/-- C6 fails on the code: on a session that is initialised and not connected,
`selectGroup("200")` returns true, changes the selected group from "0" to "200"
and forwards the selection to the stream object. -/
theorem C6_selectGroup_before_connect_counterexample :
    sampleInitialized.initialized_ = true ∧
    sampleInitialized.connected_ = false ∧
    sampleInitialized.selectedGroupId_ = "0" ∧
    forwardedGroup sampleInitialized = none ∧
    (SelectGroup sampleInitialized [.str "200"] sampleIdle).1 = .boolean true ∧
    (SelectGroup sampleInitialized [.str "200"] sampleIdle).2.selectedGroupId_ = "200" ∧
    forwardedGroup (SelectGroup sampleInitialized [.str "200"] sampleIdle).2 = some "200" := by
  decide

/-- C6 as amended: `selectGroup` does not look at the connected flag. On every
initialised session (stream object present), connected or not, it records the
requested group id, forwards it to the stream object and returns true; on a
session that is not initialised it raises "Not initialized" and changes
nothing. -/
theorem C6_selectGroup_requires_only_initialized (w : HueWrapper) (info : List JsValue)
    (reply : Observed) :
    (∀ hs, w.initialized_ = true → w.hueStream_ = some hs →
      (SelectGroup w info reply).1 = .boolean true ∧
      (SelectGroup w info reply).2.selectedGroupId_ = groupIdArg info ∧
      forwardedGroup (SelectGroup w info reply).2 = some (groupIdArg info) ∧
      (SelectGroup w info reply).2.connected_ = w.connected_) ∧
    ((w.initialized_ = false ∨ w.hueStream_ = none) →
      SelectGroup w info reply = (.throws .Error "Not initialized", w)) := by
  constructor
  · intro hs hi hh
    simp [SelectGroup, hi, hh, forwardedGroup, HueStream.SelectGroup]
  · intro h
    rcases h with h | h
    · simp [SelectGroup, h]
    · cases hi : w.initialized_ <;> simp [SelectGroup, h, hi]

/-- C6 as amended, at concrete inputs: accepted on an initialised session that
is not connected, refused on a freshly constructed wrapper. -/
theorem C6_selectGroup_requires_only_initialized_witness :
    ((SelectGroup sampleInitialized [.str "200"] sampleIdle).1 = .boolean true ∧
      (SelectGroup sampleInitialized [.str "200"] sampleIdle).2.selectedGroupId_ =
        groupIdArg [.str "200"] ∧
      forwardedGroup (SelectGroup sampleInitialized [.str "200"] sampleIdle).2 =
        some (groupIdArg [.str "200"]) ∧
      (SelectGroup sampleInitialized [.str "200"] sampleIdle).2.connected_ =
        sampleInitialized.connected_) ∧
    SelectGroup (HueWrapper.new "app" "device") [.str "200"] sampleIdle =
      (.throws .Error "Not initialized", HueWrapper.new "app" "device") :=
  ⟨(C6_selectGroup_requires_only_initialized sampleInitialized [.str "200"] sampleIdle).1
      (HueStream.new ⟨"app", "device", "default_key", "DTLS", true, 60⟩) rfl rfl,
   (C6_selectGroup_requires_only_initialized (HueWrapper.new "app" "device")
      [.str "200"] sampleIdle).2 (Or.inl rfl)⟩

/-- C7: on an initialised and connected session whose bridge does not report
streaming, `start` returns the boolean false, creates no effect, adds nothing
to the mixer and leaves the enabled flag and the colour map unchanged; `start`
raises an error, and then it is "Not connected to bridge" with the wrapper
unchanged, exactly when the session is not initialised or not connected. -/
theorem C7_start_not_ready_returns_false (w : HueWrapper) :
    (∀ hs, w.initialized_ = true → w.hueStream_ = some hs → w.connected_ = true →
      hs.IsBridgeStreaming = false →
      (Start w).1 = .boolean false ∧
      (Start w).2.manualEffect_ = w.manualEffect_ ∧
      mixerEffects (Start w).2 = mixerEffects w ∧
      effectEnabled (Start w).2 = effectEnabled w ∧
      colorMap (Start w).2 = colorMap w) ∧
    ((∃ kind message, (Start w).1 = .throws kind message) ↔
      (w.initialized_ = false ∨ w.hueStream_ = none ∨ w.connected_ = false)) ∧
    (∀ kind message, (Start w).1 = .throws kind message →
      Start w = (.throws .Error "Not connected to bridge", w)) := by
  rcases Start_cases w with ⟨h, hcond⟩ | ⟨hs, hi, hh, hc, hb, h⟩ | ⟨hs, hi, hh, hc, hb, h⟩
  · refine ⟨?_, ?_, ?_⟩
    · intro hs hi hh hc _
      rcases hcond with h1 | h1 | h1 <;> simp_all
    · rw [h]
      exact ⟨fun _ => hcond, fun _ => ⟨_, _, rfl⟩⟩
    · intro _ _ _
      exact h
  · refine ⟨?_, ?_, ?_⟩
    · intro _ _ _ _ _
      rw [h]
      exact ⟨rfl, rfl, rfl, rfl, rfl⟩
    · rw [h]
      constructor
      · rintro ⟨k, m, hkm⟩
        exact absurd hkm (by simp)
      · intro hcond
        rcases hcond with h1 | h1 | h1 <;> simp_all
    · intro k m hkm
      rw [h] at hkm
      exact absurd hkm (by simp)
  · refine ⟨?_, ?_, ?_⟩
    · intro hs' _ hh' _ hb'
      rw [hh] at hh'
      cases hh'
      rw [hb] at hb'
      exact absurd hb' (by simp)
    · rw [h]
      constructor
      · rintro ⟨k, m, hkm⟩
        exact absurd hkm (by simp)
      · intro hcond
        rcases hcond with h1 | h1 | h1 <;> simp_all
    · intro k m hkm
      rw [h] at hkm
      exact absurd hkm (by simp)

/-- C7 at concrete inputs: `start` on a connected session whose bridge is
ready and not streaming returns false and creates no effect; on a freshly
constructed wrapper it raises "Not connected to bridge". -/
theorem C7_start_not_ready_returns_false_witness :
    ((Start sampleConnected).1 = .boolean false ∧
      (Start sampleConnected).2.manualEffect_ = sampleConnected.manualEffect_ ∧
      mixerEffects (Start sampleConnected).2 = mixerEffects sampleConnected ∧
      effectEnabled (Start sampleConnected).2 = effectEnabled sampleConnected ∧
      colorMap (Start sampleConnected).2 = colorMap sampleConnected) ∧
    (∃ kind message, (Start (HueWrapper.new "app" "device")).1 = .throws kind message) ∧
    Start (HueWrapper.new "app" "device") =
      (.throws .Error "Not connected to bridge", HueWrapper.new "app" "device") :=
  ⟨(C7_start_not_ready_returns_false sampleConnected).1 _ rfl rfl rfl rfl,
   (C7_start_not_ready_returns_false (HueWrapper.new "app" "device")).2.1.2 (Or.inl rfl),
   (C7_start_not_ready_returns_false (HueWrapper.new "app" "device")).2.2
     .Error "Not connected to bridge" rfl⟩

/-- C8: on an initialised session called with a well-formed bridge descriptor,
`connectManual` returns a boolean b and sets the connected flag to b, where b is
true if and only if the connection result the EDK reports is ReadyToStart or
Streaming, whatever the flag was before; on a session that is not initialised
it raises "Not initialized" and changes nothing. -/
theorem C8_connectManual_sets_connected (w : HueWrapper) (info : List JsValue)
    (reply : Observed) :
    (∀ hs config rest, w.initialized_ = true → w.hueStream_ = some hs →
      info = .object config :: rest → wellFormedDescriptor config = true →
      ∃ b, (ConnectManual w info reply).1 = .boolean b ∧
        (ConnectManual w info reply).2.connected_ = b ∧
        (b = true ↔ (reply.connectionResult = .ReadyToStart ∨
          reply.connectionResult = .Streaming))) ∧
    ((w.initialized_ = false ∨ w.hueStream_ = none) →
      ConnectManual w info reply = (.throws .Error "Not initialized", w)) := by
  constructor
  · intro hs config rest hi hh hinfo hwf
    subst hinfo
    simp only [wellFormedDescriptor, Bool.and_eq_true, Option.isSome_iff_exists] at hwf
    obtain ⟨⟨⟨⟨id, hid⟩, ⟨ip, hip⟩⟩, ⟨user, huser⟩⟩, ⟨key, hkey⟩⟩ := hwf
    refine ⟨decide (reply.connectionResult = .ReadyToStart) ||
      decide (reply.connectionResult = .Streaming), ?_, ?_, ?_⟩
    · simp [ConnectManual, hi, hh, hid, hip, huser, hkey, HueStream.GetConnectionResult,
        HueStream.ConnectManualBridgeInfo, HueStream.observe]
    · simp [ConnectManual, hi, hh, hid, hip, huser, hkey, HueStream.GetConnectionResult,
        HueStream.ConnectManualBridgeInfo, HueStream.observe]
    · simp
  · intro h
    rcases h with h | h
    · simp [ConnectManual, h]
    · cases hi : w.initialized_ <;> simp [ConnectManual, h, hi]

/-- C8 at concrete inputs: a Failed result on a session that was connected
yields false and connected = false; a ReadyToStart result yields true; on a
freshly constructed wrapper the call raises "Not initialized". -/
theorem C8_connectManual_sets_connected_witness :
    sampleConnected.connected_ = true ∧
    (ConnectManual sampleConnected [sampleConfig] sampleIdle).1 = .boolean false ∧
    (ConnectManual sampleConnected [sampleConfig] sampleIdle).2.connected_ = false ∧
    (∃ b, (ConnectManual sampleInitialized [sampleConfig] sampleReady).1 = .boolean b ∧
      (ConnectManual sampleInitialized [sampleConfig] sampleReady).2.connected_ = b ∧
      (b = true ↔ (sampleReady.connectionResult = .ReadyToStart ∨
        sampleReady.connectionResult = .Streaming))) ∧
    ConnectManual (HueWrapper.new "app" "device") [sampleConfig] sampleReady =
      (.throws .Error "Not initialized", HueWrapper.new "app" "device") :=
  ⟨by decide, by decide, by decide,
   (C8_connectManual_sets_connected sampleInitialized [sampleConfig] sampleReady).1
     _ _ [] rfl rfl rfl rfl,
   (C8_connectManual_sets_connected (HueWrapper.new "app" "device") [sampleConfig]
     sampleReady).2 (Or.inl rfl)⟩

/-- C9: `shutdown` is idempotent. From every wrapper state the call returns
true and leaves the initialised, connected and streaming flags false and the
stream, config and effect released; a second call returns true again and
leaves that state as it is. -/
theorem C9_shutdown_idempotent (w : HueWrapper) :
    (Shutdown w).1 = .boolean true ∧
    (Shutdown (Shutdown w).2).1 = .boolean true ∧
    (Shutdown (Shutdown w).2).2 = (Shutdown w).2 ∧
    (Shutdown w).2.initialized_ = false ∧ (Shutdown w).2.connected_ = false ∧
    (Shutdown w).2.streaming_ = false ∧ (Shutdown w).2.hueStream_ = none ∧
    (Shutdown w).2.config_ = none ∧ (Shutdown w).2.manualEffect_ = none := by
  rw [Shutdown_eq (Shutdown w).2, Shutdown_eq w]
  exact ⟨rfl, rfl, rfl, rfl, rfl, rfl, rfl, rfl, rfl⟩

/-- C10 fails on the code: after a shutdown that returned true, `initialize`
followed by `connectManual` brings the session back, and `getStatus` reports
initialized = true and connected = true. -/
theorem C10_shutdown_terminal_counterexample :
    (Shutdown sampleStarted).1 = .boolean true ∧
    (GetStatus (Shutdown sampleStarted).2).1 =
      .status { initialized := false, connected := false, streaming := false,
                appName := "app", deviceName := "device", streamingMode := "DTLS",
                selectedGroup := "200", bridge := none } ∧
    (GetStatus (run sampleLib (Shutdown sampleStarted).2
        [.call .Initialize, .call (.ConnectManual [sampleConfig] sampleStreaming)])).1 =
      .status { initialized := true, connected := true, streaming := true,
                appName := "app", deviceName := "device", streamingMode := "DTLS",
                selectedGroup := "200",
                bridge := some ⟨"bridge", "192.168.1.2", true, true⟩ } := by
  decide

/-- C10 as amended: after a shutdown the session stays in the shut-down state
under every sequence of calls and bridge changes that contains no `initialize`
call, and `getStatus` keeps reporting initialized = false and connected =
false; an `initialize` call made then sets initialized again. -/
theorem C10_shut_down_until_initialize (lib : ColorLib) (w : HueWrapper)
    (trace : List Event) (hno : ∀ ev ∈ trace, ev ≠ .call .Initialize) :
    run lib (Shutdown w).2 trace = (Shutdown w).2 ∧
    (∃ st, (GetStatus (run lib (Shutdown w).2 trace)).1 = .status st ∧
      st.initialized = false ∧ st.connected = false) ∧
    (Initialize (run lib (Shutdown w).2 trace)).2.initialized_ = true := by
  rw [run_after_Shutdown lib w trace hno, Shutdown_eq w]
  exact ⟨rfl, ⟨_, rfl, rfl, rfl⟩, rfl⟩

/-- C10 as amended, at a concrete input: after the shutdown of a started
session, `connectManual`, `selectGroup`, `start`, a streaming bridge, a colour
call, `stop` and a second `shutdown` leave the session shut down. -/
theorem C10_shut_down_until_initialize_witness :
    run sampleLib (Shutdown sampleStarted).2 sampleAfterShutdown = (Shutdown sampleStarted).2 ∧
    (∃ st, (GetStatus (run sampleLib (Shutdown sampleStarted).2 sampleAfterShutdown)).1 =
        .status st ∧ st.initialized = false ∧ st.connected = false) ∧
    (Initialize (run sampleLib (Shutdown sampleStarted).2 sampleAfterShutdown)).2.initialized_ =
      true :=
  C10_shut_down_until_initialize sampleLib sampleStarted sampleAfterShutdown (by decide)

/-- C11: in every state reachable from a freshly constructed wrapper by calls
and bridge changes, `stop` returns a boolean (true) without raising and without
a call through an absent stream object; it sets the enabled flag to false when
an effect exists, leaves the stream object as it is (the transport is not
stopped) and leaves the initialised and connected flags, the selected group and
the colour map unchanged. -/
theorem C11_stop_disables_effect_only (lib : ColorLib) (appName deviceName : String)
    (trace : List Event) :
    (Stop (run lib (HueWrapper.new appName deviceName) trace)).1 = .boolean true ∧
    effectEnabled (Stop (run lib (HueWrapper.new appName deviceName) trace)).2 =
      (effectEnabled (run lib (HueWrapper.new appName deviceName) trace)).map
        (fun _ => false) ∧
    (Stop (run lib (HueWrapper.new appName deviceName) trace)).2.hueStream_ =
      (run lib (HueWrapper.new appName deviceName) trace).hueStream_ ∧
    transportStops (Stop (run lib (HueWrapper.new appName deviceName) trace)).2 =
      transportStops (run lib (HueWrapper.new appName deviceName) trace) ∧
    (Stop (run lib (HueWrapper.new appName deviceName) trace)).2.initialized_ =
      (run lib (HueWrapper.new appName deviceName) trace).initialized_ ∧
    (Stop (run lib (HueWrapper.new appName deviceName) trace)).2.connected_ =
      (run lib (HueWrapper.new appName deviceName) trace).connected_ ∧
    (Stop (run lib (HueWrapper.new appName deviceName) trace)).2.selectedGroupId_ =
      (run lib (HueWrapper.new appName deviceName) trace).selectedGroupId_ ∧
    colorMap (Stop (run lib (HueWrapper.new appName deviceName) trace)).2 =
      colorMap (run lib (HueWrapper.new appName deviceName) trace) := by
  have hinv := run_effectInMixer lib _ trace (effectInMixer_new appName deviceName)
  generalize run lib (HueWrapper.new appName deviceName) trace = w at hinv
  rw [Stop_of_effectInMixer w hinv]
  refine ⟨rfl, ?_, rfl, rfl, rfl, rfl, rfl, ?_⟩
  · cases he : w.manualEffect_ <;> simp [effectEnabled, he, ManualEffect.Disable]
  · cases he : w.manualEffect_ <;> simp [colorMap, he, ManualEffect.Disable]

/-- C12: with the colour constructors and conversions of the EDK as the
specification describes them (clamping, canonical output), every colour stored
in the map of a state reachable from a freshly constructed wrapper has its four
components in [0,1]; and a successful setColorRGB, setColorRGBA,
setLightColorRGB or setLightColorRGBA call with any numeric arguments stores,
for every fixture it addresses, the quotients r/255, g/255, b/255 and the alpha
(1 when the operation takes none) clamped to [0,1]. -/
theorem C12_stored_colours_clamped (lib : ColorLib) (hlib : lib.Canonical) :
    (∀ (appName deviceName : String) (trace : List Event) (f : String) (c : Color),
      colorOf (run lib (HueWrapper.new appName deviceName) trace) f = some c →
      (0 ≤ c.r ∧ c.r ≤ 1) ∧ (0 ≤ c.g ∧ c.g ≤ 1) ∧ (0 ≤ c.b ∧ c.b ≤ 1) ∧
        (0 ≤ c.a ∧ c.a ≤ 1)) ∧
    (∀ (op : ColorOp) (w : HueWrapper) (info : List JsValue) (f : String) (r g b a : ℚ),
      rgbaArgs op info = some (r, g, b, a) →
      (callColor lib op w info).1 = .boolean true →
      addresses w op info f = true →
      colorOf (callColor lib op w info).2 f =
        some ⟨clamp01 (r / 255), clamp01 (g / 255), clamp01 (b / 255), clamp01 a⟩) := by
  constructor
  · intro appName deviceName trace f c hf
    have hnew : colorsInUnit (HueWrapper.new appName deviceName) := by
      intro f' c' hf'
      simp [colorOf, colorMap, HueWrapper.new, lookupColor] at hf'
    exact run_colorsInUnit lib hlib _ trace hnew f c hf
  · intro op w info f r g b a hargs hok haddr
    obtain ⟨c, hc, hcol⟩ := colorOf_after_call lib op w info f hok haddr
    rw [colorOfCall_of_rgbaArgs lib op info r g b a c hargs hc] at hcol
    exact hcol

/-- C12 at concrete inputs: after `setColorRGB(510, -255, 0)` fixture "1" holds
(1, 0, 0, 1), a colour in [0,1]^4, and `setColorRGBA(0, 0, 0, 5)` stores the
alpha clamped to 1. -/
theorem C12_stored_colours_clamped_witness :
    colorOf (run sampleCanonicalLib (HueWrapper.new "app" "device") sampleOutOfRangeTrace)
        "1" = some ⟨1, 0, 0, 1⟩ ∧
    ((0 ≤ (1 : ℚ) ∧ (1 : ℚ) ≤ 1) ∧ (0 ≤ (0 : ℚ) ∧ (0 : ℚ) ≤ 1) ∧
      (0 ≤ (0 : ℚ) ∧ (0 : ℚ) ≤ 1) ∧ (0 ≤ (1 : ℚ) ∧ (1 : ℚ) ≤ 1)) ∧
    colorOf (callColor sampleCanonicalLib .setColorRGBA sampleStarted
        [.num 0, .num 0, .num 0, .num 5]).2 "1" =
      some ⟨clamp01 (0 / 255), clamp01 (0 / 255), clamp01 (0 / 255), clamp01 5⟩ ∧
    clamp01 5 = 1 :=
  ⟨by with_unfolding_all rfl,
   (C12_stored_colours_clamped sampleCanonicalLib sampleCanonicalLib_canonical).1
     "app" "device" sampleOutOfRangeTrace "1" ⟨1, 0, 0, 1⟩ (by with_unfolding_all rfl),
   (C12_stored_colours_clamped sampleCanonicalLib sampleCanonicalLib_canonical).2
     .setColorRGBA sampleStarted [.num 0, .num 0, .num 0, .num 5] "1" 0 0 0 5
     (by with_unfolding_all rfl) (by with_unfolding_all rfl) (by with_unfolding_all rfl),
   by with_unfolding_all rfl⟩

/-- C13: `start` is idempotent. On a reachable session that is initialised and
connected and whose bridge streams, `start` returns true and leaves the effect
existing and enabled; a second `start` returns true and leaves the state of the
first; the mixer then holds the manual effect exactly once, and neither call
changes the stored colours. -/
theorem C13_start_idempotent (lib : ColorLib) (appName deviceName : String)
    (trace : List Event) (w : HueWrapper) (hs : HueStream)
    (hreach : w = run lib (HueWrapper.new appName deviceName) trace)
    (hi : w.initialized_ = true) (hh : w.hueStream_ = some hs) (hc : w.connected_ = true)
    (hb : hs.IsBridgeStreaming = true) :
    (Start w).1 = .boolean true ∧
    effectEnabled (Start w).2 = some true ∧
    Start (Start w).2 = (.boolean true, (Start w).2) ∧
    mixerEffects (Start w).2 = ["manual_effect"] ∧
    mixerEffects (Start (Start w).2).2 = ["manual_effect"] ∧
    colorMap (Start w).2 = colorMap w ∧
    colorMap (Start (Start w).2).2 = colorMap (Start w).2 := by
  have hinv : effectInMixer w := by
    rw [hreach]
    exact run_effectInMixer lib _ trace (effectInMixer_new appName deviceName)
  have htwice := Start_twice w hs hi hh hc hb
  rw [htwice]
  have hfirst := Start_of_streaming w hs hi hh hc hb
  rw [hfirst]
  rcases hinv with ⟨he, hm⟩ | ⟨e, hs', he, hh', -, hm⟩
  · simp only [mixerEffects, hh] at hm
    simp [he, effectEnabled, mixerEffects, colorMap, ManualEffect.Enable, ManualEffect.new,
      HueStream.AddEffect, hm]
  · rw [hh] at hh'
    cases hh'
    simp [he, effectEnabled, mixerEffects, colorMap, ManualEffect.Enable, hh, hm]

/-- C13 at a concrete input: the first `start` of a session creates the effect
and adds it to the mixer, the second leaves that state. -/
theorem C13_start_idempotent_witness :
    mixerEffects sampleBeforeStart = [] ∧
    ((Start sampleBeforeStart).1 = .boolean true ∧
      effectEnabled (Start sampleBeforeStart).2 = some true ∧
      Start (Start sampleBeforeStart).2 = (.boolean true, (Start sampleBeforeStart).2) ∧
      mixerEffects (Start sampleBeforeStart).2 = ["manual_effect"] ∧
      mixerEffects (Start (Start sampleBeforeStart).2).2 = ["manual_effect"] ∧
      colorMap (Start sampleBeforeStart).2 = colorMap sampleBeforeStart ∧
      colorMap (Start (Start sampleBeforeStart).2).2 = colorMap (Start sampleBeforeStart).2) :=
  ⟨by decide,
   C13_start_idempotent sampleLib "app" "device"
     [.call .Initialize, .call (.ConnectManual [sampleConfig] sampleStreaming),
      .call (.SelectGroup [.str "200"] sampleStreaming)]
     sampleBeforeStart _ rfl rfl rfl rfl rfl⟩

/-- C14: while the streaming gate passes, a colour operation called with fewer
arguments than it requires raises a TypeError and returns the wrapper
unchanged: no fixture colour and not the enabled flag is changed. -/
theorem C14_too_few_arguments (lib : ColorLib) (op : ColorOp) (w : HueWrapper)
    (hs : HueStream) (effect : ManualEffect) (info : List JsValue)
    (hh : w.hueStream_ = some hs) (hb : hs.IsBridgeStreaming = true)
    (he : w.manualEffect_ = some effect)
    (hlen : info.length < requiredArgs op) :
    (∃ message, (callColor lib op w info).1 = .throws .TypeError message) ∧
    (callColor lib op w info).2 = w ∧
    colorMap (callColor lib op w info).2 = colorMap w ∧
    effectEnabled (callColor lib op w info).2 = effectEnabled w := by
  have hg := streamingGate_eq_some w hs effect hh hb he
  have hcall : ∃ message, callColor lib op w info = (.throws .TypeError message, w) := by
    cases op <;> simp only [requiredArgs] at hlen <;>
      simp [callColor, SetColorRGB, SetColorRGBA, SetLightColorRGB, SetLightColorRGBA,
        SetColorXY, SetLightColorXY, SetColorCT, SetLightColorCT, SetBrightness,
        SetLightBrightness, hg, hlen]
  obtain ⟨message, hm⟩ := hcall
  rw [hm]
  exact ⟨⟨message, rfl⟩, rfl, rfl, rfl⟩

/-- C14 at a concrete input: `setLightColorRGBA(3, 255, 0, 0)` lacks the alpha
and is refused with a TypeError on a started session. -/
theorem C14_too_few_arguments_witness :
    (∃ message, (callColor sampleLib .setLightColorRGBA sampleStarted
        [.num 3, .num 255, .num 0, .num 0]).1 = .throws .TypeError message) ∧
    (callColor sampleLib .setLightColorRGBA sampleStarted
        [.num 3, .num 255, .num 0, .num 0]).2 = sampleStarted ∧
    colorMap (callColor sampleLib .setLightColorRGBA sampleStarted
        [.num 3, .num 255, .num 0, .num 0]).2 = colorMap sampleStarted ∧
    effectEnabled (callColor sampleLib .setLightColorRGBA sampleStarted
        [.num 3, .num 255, .num 0, .num 0]).2 = effectEnabled sampleStarted :=
  C14_too_few_arguments sampleLib .setLightColorRGBA sampleStarted _ _
    [.num 3, .num 255, .num 0, .num 0] rfl rfl rfl (by decide)

/-- C16: while the streaming gate passes, an all-fixtures colour operation
called with enough arguments, all numbers, returns true although it writes
nothing when the active bridge is absent, has no group, or the group has no
light list: the wrapper, and with it the colour map and the enabled flag, is
exactly as before the call. -/
theorem C16_silent_success_without_group (lib : ColorLib) (op : ColorOp) (w : HueWrapper)
    (hs : HueStream) (effect : ManualEffect) (info : List JsValue)
    (hh : w.hueStream_ = some hs) (hb : hs.IsBridgeStreaming = true)
    (he : w.manualEffect_ = some effect)
    (hop : op.perFixture = false)
    (hlen : requiredArgs op ≤ info.length)
    (hnum : ∀ i, i < requiredArgs op → ∃ x, DoubleValue (arg info i) = some x)
    (hno : hs.GetActiveBridge = none ∨
      (∃ bridge, hs.GetActiveBridge = some bridge ∧ bridge.group = none) ∨
      (∃ bridge group, hs.GetActiveBridge = some bridge ∧ bridge.group = some group ∧
        group.lights = none)) :
    callColor lib op w info = (.boolean true, w) ∧
    colorMap (callColor lib op w info).2 = colorMap w ∧
    effectEnabled (callColor lib op w info).2 = effectEnabled w := by
  have hg := streamingGate_eq_some w hs effect hh hb he
  have hgl : groupLights hs = none := by
    rcases hno with h | ⟨bridge, h1, h2⟩ | ⟨bridge, group, h1, h2, h3⟩
    · simp [groupLights, h]
    · simp [groupLights, h1, h2]
    · simp [groupLights, h1, h2, h3]
  have hcall : callColor lib op w info = (.boolean true, w) := by
    cases op <;> simp only [ColorOp.perFixture] at hop <;>
      simp only [requiredArgs] at hlen hnum
    all_goals try (exact Bool.noConfusion hop)
    case setColorRGB =>
      obtain ⟨x0, h0⟩ := hnum 0 (by norm_num)
      obtain ⟨x1, h1⟩ := hnum 1 (by norm_num)
      obtain ⟨x2, h2⟩ := hnum 2 (by norm_num)
      simp [callColor, SetColorRGB, hg, not_lt.mpr hlen, h0, h1, h2, applyToGroup, hgl]
    case setColorRGBA =>
      obtain ⟨x0, h0⟩ := hnum 0 (by norm_num)
      obtain ⟨x1, h1⟩ := hnum 1 (by norm_num)
      obtain ⟨x2, h2⟩ := hnum 2 (by norm_num)
      obtain ⟨x3, h3⟩ := hnum 3 (by norm_num)
      simp [callColor, SetColorRGBA, hg, not_lt.mpr hlen, h0, h1, h2, h3, applyToGroup, hgl]
    case setColorXY =>
      obtain ⟨x0, h0⟩ := hnum 0 (by norm_num)
      obtain ⟨x1, h1⟩ := hnum 1 (by norm_num)
      obtain ⟨x2, h2⟩ := hnum 2 (by norm_num)
      simp [callColor, SetColorXY, hg, not_lt.mpr hlen, h0, h1, h2, applyToGroup, hgl]
    case setColorCT =>
      obtain ⟨x0, h0⟩ := hnum 0 (by norm_num)
      obtain ⟨x1, h1⟩ := hnum 1 (by norm_num)
      simp [callColor, SetColorCT, hg, not_lt.mpr hlen, Int32Value, h0, h1, applyToGroup, hgl]
    case setBrightness =>
      obtain ⟨x0, h0⟩ := hnum 0 (by norm_num)
      have hpos : 0 < info.length := hlen
      simp [callColor, SetBrightness, hg, h0, applyToGroup, hgl]
      intro hnil
      simp [hnil] at hpos
  rw [hcall]
  exact ⟨rfl, rfl, rfl⟩

/-- C16 at a concrete input: the bridge streams and has no group, the fixtures
are red and the effect is disabled; `setColorRGB(0,255,0)` returns true and the
fixtures stay red, the effect disabled. -/
theorem C16_silent_success_without_group_witness :
    effectEnabled sampleNoGroup = some false ∧
    colorOf sampleNoGroup "1" = some ⟨1, 0, 0, 1⟩ ∧
    (callColor sampleLib .setColorRGB sampleNoGroup [.num 0, .num 255, .num 0] =
        (.boolean true, sampleNoGroup) ∧
      colorMap (callColor sampleLib .setColorRGB sampleNoGroup
        [.num 0, .num 255, .num 0]).2 = colorMap sampleNoGroup ∧
      effectEnabled (callColor sampleLib .setColorRGB sampleNoGroup
        [.num 0, .num 255, .num 0]).2 = effectEnabled sampleNoGroup) :=
  ⟨by with_unfolding_all rfl, by with_unfolding_all rfl,
   C16_silent_success_without_group sampleLib .setColorRGB sampleNoGroup _ _
     [.num 0, .num 255, .num 0] rfl rfl rfl rfl (by decide)
     (by
       intro i hi
       simp only [requiredArgs] at hi
       interval_cases i <;> exact ⟨_, rfl⟩)
     (Or.inr (Or.inl ⟨_, rfl, rfl⟩))⟩

end HueEdk
